import Mathlib

/-!
Shallow embedding of the `simple_mcp` repository: two MCP servers,
`crm-mcp-server/crm_server.py` (a sqlite-backed CRM) and
`simple-file-reader/file_reader.py` (a filesystem reader).

Modelling conventions.

* sqlite storage values are the inductive `Value` (NULL, INTEGER, REAL, TEXT).
  A REAL is modelled exactly as a fraction (`Frac`: integer numerator over a
  positive denominator); IEEE floating-point rounding is not modelled, no claim
  observed here depends on it.  sqlite's cross-class comparison order
  (NULL < numeric < text, text compared bytewise) is `sqliteLe`.
* The argument bag received by `handle_call_tool` is an association list
  `ArgBag`; `bagFind?` is Python's `arguments[k]` (a `none` result is the spot
  where Python raises `KeyError`), `bagGetD` is `arguments.get(k, d)`.
* The database is the triple of tables `DB`.  `INSERT` statements are the
  `insert…` functions; they enforce the NOT NULL and UNIQUE constraints of the
  schema in `init_database` and return the sqlite `IntegrityError` message on
  violation.  Foreign keys are declared but NOT enforced (the server never
  issues `PRAGMA foreign_keys=ON`, and sqlite defaults to off).  Column type
  affinity conversions and the `created_at`/`updated_at` timestamp columns are
  not modelled (no claim observes them); `interaction_date` is kept as an
  integer timestamp because the recent-interactions window reads it.
* Every `execute_query`/`execute_write` invocation is recorded in the
  `calls` field of the handler `Outcome`, so "no backend call is made" is the
  statement `calls = []`.
* `json.dumps` pretty-printing is replaced by the concrete `render…`
  functions (the spec scopes report-formatting cosmetics out); every other
  message string is the byte-exact literal of the source, including the
  source file's mis-encoded emoji marker sequences.
* Python exceptions that escape `handle_call_tool` are the `PyExc` error of
  the returned `Except`; exceptions caught inside a handler's `try` block are
  translated exactly where the source's `except` clauses do it.
-/

namespace SimpleMcp

/-- Code-point lexicographic comparison of character lists: the order Python's
`sorted` uses on `str` and sqlite uses on TEXT values. -/
def charsLe : List Char → List Char → Bool
  | [], _ => true
  | _ :: _, [] => false
  | a :: as, b :: bs =>
    if a.toNat < b.toNat then true
    else if b.toNat < a.toNat then false
    else charsLe as bs

/-- String comparison by code points. -/
def strLe (a b : String) : Bool := charsLe a.data b.data

/-- Whether `pat` is a prefix of the second list. -/
def charsIsPre : List Char → List Char → Bool
  | [], _ => true
  | _ :: _, [] => false
  | a :: as, b :: bs => a == b && charsIsPre as bs

/-- Whether `pat` occurs as a contiguous sublist. -/
def charsContains (pat : List Char) : List Char → Bool
  | [] => charsIsPre pat []
  | c :: cs => charsIsPre pat (c :: cs) || charsContains pat cs

/-- Python's `pat in s` substring test. -/
def strContains (s pat : String) : Bool := charsContains pat.data s.data

/-- ASCII lower-casing, as sqlite's `LIKE` applies to both operands. -/
def strLower (s : String) : String := String.mk (s.data.map Char.toLower)

/-- Exact model of a sqlite REAL: numerator `num` over the positive
denominator `den1 + 1`.  Kept unnormalized so every operation is a plain
integer computation. -/
structure Frac where
  num : Int
  den1 : Nat
deriving DecidableEq, Repr

/-- The (positive) denominator. -/
def Frac.den (q : Frac) : Nat := q.den1 + 1

/-- Embed an integer. -/
def Frac.ofInt (i : Int) : Frac := ⟨i, 0⟩

/-- Comparison by cross multiplication (denominators are positive). -/
def Frac.le (a b : Frac) : Bool := decide (a.num * (b.den : Int) ≤ b.num * (a.den : Int))

/-- Addition. -/
def Frac.add (a b : Frac) : Frac := ⟨a.num * (b.den : Int) + b.num * (a.den : Int), a.den * b.den - 1⟩

/-- Multiplication. -/
def Frac.mul (a b : Frac) : Frac := ⟨a.num * b.num, a.den * b.den - 1⟩

/-- Division by a positive natural (used by the SQL `AVG`). -/
def Frac.divNat (a : Frac) : Nat → Frac
  | 0 => ⟨0, 0⟩
  | n + 1 => ⟨a.num, a.den * (n + 1) - 1⟩

/-- Value of a `Frac` as a rational number (proof-side only). -/
def Frac.toRat (q : Frac) : ℚ := (q.num : ℚ) / (q.den : ℚ)

/-- A sqlite storage value. -/
inductive Value where
  | null
  | int (i : Int)
  | real (q : Frac)
  | text (s : String)
deriving DecidableEq, Repr

/-- The numeric content of an INTEGER or REAL value. -/
def Value.toFrac : Value → Frac
  | .int i => Frac.ofInt i
  | .real q => q
  | _ => Frac.ofInt 0

/-- Whether a value is NULL. -/
def Value.isNull : Value → Bool
  | .null => true
  | _ => false

/-- sqlite's total ordering of storage values: NULL, then INTEGER/REAL in
numeric order, then TEXT in bytewise order.  (No BLOB values arise here.) -/
def sqliteLe : Value → Value → Bool
  | .null, .null => true
  | .null, .int _ => true
  | .null, .real _ => true
  | .null, .text _ => true
  | .int _, .null => false
  | .real _, .null => false
  | .text _, .null => false
  | .int i, .int j => Frac.le (Frac.ofInt i) (Frac.ofInt j)
  | .int i, .real q => Frac.le (Frac.ofInt i) q
  | .real p, .int j => Frac.le p (Frac.ofInt j)
  | .real p, .real q => Frac.le p q
  | .int _, .text _ => true
  | .real _, .text _ => true
  | .text _, .int _ => false
  | .text _, .real _ => false
  | .text s, .text t => strLe s t

/-- Strict comparison: `a < b` in sqlite's value order. -/
def sqliteLt (a b : Value) : Bool := !(sqliteLe b a)

/-- sqlite's `=` between stored values. -/
def sqliteEq (a b : Value) : Bool := sqliteLe a b && sqliteLe b a

/-- The SQL comparison `a > b` (false whenever either side is NULL, because
a NULL comparison result is not a match in a WHERE clause). -/
def sqliteGt (a b : Value) : Bool := !a.isNull && !b.isNull && sqliteLt b a

/-- Python's `str()` of a value as it appears inside the handlers' f-strings
(`None` for NULL; the REAL rendering is a cosmetic stand-in for the float
repr, no claim observes it). -/
def pyStr : Value → String
  | .null => "None"
  | .int i => toString i
  | .real q => toString q.num ++ "/" ++ toString q.den
  | .text s => s

/-- Python's `str()` of an `arguments.get(k)` result (default `None`). -/
def pyOptStr : Option Value → String
  | none => "None"
  | some v => pyStr v

/-- The argument bag delivered with a `call_tool` request. -/
def ArgBag := List (String × Value)

/-- Python `arguments[k]`; `none` is where Python raises `KeyError(k)`. -/
def bagFind? : ArgBag → String → Option Value
  | [], _ => none
  | (k', v) :: rest, k => if k' = k then some v else bagFind? rest k

/-- Python `arguments.get(k, d)`. -/
def bagGetD (args : ArgBag) (k : String) (d : Value) : Value :=
  (bagFind? args k).getD d

end SimpleMcp

namespace SimpleMcp.CRM

/-- A row of the `customers` table (schema of `CRMDatabase.init_database`;
the two timestamp columns are not modelled). -/
structure Customer where
  id : String
  first_name : Value
  last_name : Value
  email : Value
  phone : Value
  company : Value
  industry : Value
  annual_revenue : Value
  employee_count : Value
  status : Value
  lead_source : Value
deriving DecidableEq, Repr

/-- A row of the `interactions` table (`interaction_date` carries the
`CURRENT_TIMESTAMP` default as an integer timestamp; `created_at` is not
modelled). -/
structure Interaction where
  id : String
  customer_id : Value
  interaction_type : Value
  subject : Value
  notes : Value
  interaction_date : Int
deriving DecidableEq, Repr

/-- A row of the `deals` table (timestamp columns not modelled). -/
structure Deal where
  id : String
  customer_id : Value
  deal_name : Value
  value : Value
  stage : Value
  probability : Value
  expected_close_date : Value
deriving DecidableEq, Repr

/-- The CRM database: the three tables created by `init_database`. -/
structure DB where
  customers : List Customer
  interactions : List Interaction
  deals : List Deal
deriving DecidableEq, Repr

/-- A recorded invocation of the capability provider (`execute_query` or
`execute_write`). -/
inductive BackendOp where
  | query
  | write
deriving DecidableEq, Repr

/-- What one dispatched call produces: the database afterwards, the backend
invocations made, and the returned `TextContent` blocks (their `text`). -/
structure Outcome where
  db : DB
  calls : List BackendOp
  blocks : List String
deriving DecidableEq, Repr

/-- A Python exception escaping `handle_call_tool` uncaught. -/
inductive PyExc where
  | valueError (msg : String)
  | keyError (key : String)
  | typeError (msg : String)
deriving DecidableEq, Repr

/-- The `INSERT INTO customers …` of `add_customer`: the NOT NULL constraints
on `first_name`, `last_name`, `email` and the UNIQUE constraints on `id`
(primary key) and `email`, with sqlite's `IntegrityError` messages.  The
declared FOREIGN KEYs of the other tables are never enforced (no
`PRAGMA foreign_keys=ON` is issued). -/
def insertCustomer (c : Customer) (db : DB) : Except String DB :=
  if c.first_name.isNull then .error "NOT NULL constraint failed: customers.first_name"
  else if c.last_name.isNull then .error "NOT NULL constraint failed: customers.last_name"
  else if c.email.isNull then .error "NOT NULL constraint failed: customers.email"
  else if db.customers.any (fun x => x.id = c.id) then
    .error "UNIQUE constraint failed: customers.id"
  else if db.customers.any (fun x => sqliteEq x.email c.email) then
    .error "UNIQUE constraint failed: customers.email"
  else .ok { db with customers := db.customers ++ [c] }

/-- The `INSERT INTO interactions …` of `add_interaction`. -/
def insertInteraction (i : Interaction) (db : DB) : Except String DB :=
  if i.customer_id.isNull then .error "NOT NULL constraint failed: interactions.customer_id"
  else if i.interaction_type.isNull then .error "NOT NULL constraint failed: interactions.interaction_type"
  else if db.interactions.any (fun x => x.id = i.id) then
    .error "UNIQUE constraint failed: interactions.id"
  else .ok { db with interactions := db.interactions ++ [i] }

/-- The `INSERT INTO deals …` of `add_deal`. -/
def insertDeal (d : Deal) (db : DB) : Except String DB :=
  if d.customer_id.isNull then .error "NOT NULL constraint failed: deals.customer_id"
  else if d.deal_name.isNull then .error "NOT NULL constraint failed: deals.deal_name"
  else if d.value.isNull then .error "NOT NULL constraint failed: deals.value"
  else if db.deals.any (fun x => x.id = d.id) then
    .error "UNIQUE constraint failed: deals.id"
  else .ok { db with deals := db.deals ++ [d] }

/-- The source file's literal success marker (a mis-encoded emoji). -/
def okMark : String := "âœ…"

/-- The source file's literal error marker. -/
def errMark : String := "âŒ"

/-- The source file's literal search marker. -/
def searchMark : String := "ğŸ”"

/-- The source file's literal person marker. -/
def personMark : String := "ğŸ‘¤"

/-- The source file's literal money marker. -/
def moneyMark : String := "ğŸ’°"

/-- The source file's literal bar-chart marker. -/
def chartMark : String := "ğŸ“Š"

/-- The source file's literal trend-chart marker. -/
def trendMark : String := "ğŸ“ˆ"

/-- The source file's literal calendar marker. -/
def calMark : String := "ğŸ“…"

/-- Concrete stand-in for `json.dumps` of a customer row (serialization text
is cosmetic; the spec scopes it out). -/
def renderCustomer (c : Customer) : String :=
  String.intercalate "; "
    ["id=" ++ c.id, "first_name=" ++ pyStr c.first_name, "last_name=" ++ pyStr c.last_name,
     "email=" ++ pyStr c.email, "phone=" ++ pyStr c.phone, "company=" ++ pyStr c.company,
     "industry=" ++ pyStr c.industry, "annual_revenue=" ++ pyStr c.annual_revenue,
     "employee_count=" ++ pyStr c.employee_count, "status=" ++ pyStr c.status,
     "lead_source=" ++ pyStr c.lead_source]

/-- Render a list of customer rows. -/
def renderCustomers (rows : List Customer) : String :=
  String.intercalate "\n" (rows.map renderCustomer)

/-- Render of the six columns projected by `get_top_customers_by_revenue`. -/
def renderTopRow (c : Customer) : String :=
  String.intercalate "; "
    ["first_name=" ++ pyStr c.first_name, "last_name=" ++ pyStr c.last_name,
     "company=" ++ pyStr c.company, "industry=" ++ pyStr c.industry,
     "annual_revenue=" ++ pyStr c.annual_revenue, "email=" ++ pyStr c.email]

/-- Render the top-customers listing. -/
def renderTopRows (rows : List Customer) : String :=
  String.intercalate "\n" (rows.map renderTopRow)

/-- The SQL `LIKE '%term%'` test of `search_customers`: case-insensitive
substring match, NULL never matches, non-text operands are cast to text. -/
def likeMatch (v : Value) (term : Value) : Bool :=
  match v with
  | .null => false
  | w => strContains (strLower (pyStr w)) (strLower (pyStr term))

/-- Two-key lexicographic comparison for `ORDER BY last_name, first_name`. -/
def keyLe2 (a1 a2 b1 b2 : Value) : Bool :=
  if sqliteEq a1 b1 then sqliteLe a2 b2 else sqliteLe a1 b1

/-- `ORDER BY last_name, first_name` (SQL ordering modelled as a stable
insertion sort). -/
def sortByName (l : List Customer) : List Customer :=
  List.insertionSort
    (fun c c' => keyLe2 c.last_name c.first_name c'.last_name c'.first_name = true) l

/-- `ORDER BY key` for a single customer column. -/
def sortByKey (key : Customer → Value) (l : List Customer) : List Customer :=
  List.insertionSort (fun c c' => sqliteLe (key c) (key c') = true) l

/-- Shared tail of the valid `search_customers` branches: run the query and
format the result rows. -/
def searchResult (term sf : Value) (db : DB) (rows : List Customer) : Outcome :=
  if rows.isEmpty then
    ⟨db, [.query], [searchMark ++ " No customers found matching '" ++ pyStr term ++ "' in " ++ pyStr sf]⟩
  else
    ⟨db, [.query],
     [searchMark ++ " Found " ++ toString rows.length ++ " customers:\n\n" ++ renderCustomers rows]⟩

/-- The `params` tuple of the `add_customer` branch: every field is read with
`.get` and a default, so a missing required field silently becomes the empty
string; `status` takes the column default. -/
def customerRow (freshId : String) (args : ArgBag) : Customer :=
  { id := freshId
    first_name := bagGetD args "first_name" (.text "")
    last_name := bagGetD args "last_name" (.text "")
    email := bagGetD args "email" (.text "")
    phone := bagGetD args "phone" (.text "")
    company := bagGetD args "company" (.text "")
    industry := bagGetD args "industry" (.text "")
    annual_revenue := bagGetD args "annual_revenue" (.real (Frac.ofInt 0))
    employee_count := bagGetD args "employee_count" (.int 0)
    status := .text "active"
    lead_source := bagGetD args "lead_source" (.text "") }

/-- The `add_customer` branch of `handle_call_tool`. -/
def add_customer (freshId : String) (args : ArgBag) (db : DB) : Outcome :=
  match insertCustomer (customerRow freshId args) db with
  | .ok db2 => ⟨db2, [.write], [okMark ++ " Customer successfully added with ID: " ++ freshId]⟩
  | .error e =>
    if strContains e "UNIQUE constraint failed: customers.email" then
      ⟨db, [.write],
       [errMark ++ " Error: Customer with email " ++ pyOptStr (bagFind? args "email") ++ " already exists"]⟩
    else ⟨db, [.write], [errMark ++ " Database error: " ++ e]⟩

/-- The `search_customers` branch.  The leading `arguments["search_term"]`
subscript sits inside the handler's `try`, so its `KeyError` is caught by the
generic `except` and stringified. -/
def search_customers (args : ArgBag) (db : DB) : Outcome :=
  match bagFind? args "search_term" with
  | none => ⟨db, [], [errMark ++ " Error searching customers: 'search_term'"]⟩
  | some term =>
    let sf := bagGetD args "search_field" (.text "all")
    if sf = .text "all" then
      searchResult term sf db (sortByName (db.customers.filter (fun c =>
        likeMatch c.first_name term || likeMatch c.last_name term || likeMatch c.email term ||
        likeMatch c.company term || likeMatch c.industry term)))
    else if sf = .text "name" then
      searchResult term sf db (sortByName (db.customers.filter (fun c =>
        likeMatch c.first_name term || likeMatch c.last_name term)))
    else if sf = .text "email" then
      searchResult term sf db (sortByKey Customer.email (db.customers.filter (fun c => likeMatch c.email term)))
    else if sf = .text "company" then
      searchResult term sf db (sortByKey Customer.company (db.customers.filter (fun c => likeMatch c.company term)))
    else if sf = .text "industry" then
      searchResult term sf db (sortByKey Customer.industry (db.customers.filter (fun c => likeMatch c.industry term)))
    else
      ⟨db, [], [errMark ++ " Invalid search field: " ++ pyStr sf ++ ". Use: all, name, email, company, or industry"]⟩

/-- The `get_customer` branch. -/
def get_customer (args : ArgBag) (db : DB) : Outcome :=
  match bagFind? args "customer_id" with
  | none => ⟨db, [], [errMark ++ " Error retrieving customer: 'customer_id'"]⟩
  | some cid =>
    match db.customers.filter (fun c => sqliteEq (.text c.id) cid) with
    | [] => ⟨db, [.query], [errMark ++ " No customer found with ID: " ++ pyStr cid]⟩
    | c :: _ => ⟨db, [.query], [personMark ++ " Customer Details:\n\n" ++ renderCustomer c]⟩

/-- The `params` tuple of the `add_interaction` branch (`cid` and `ity` are
the subscripted required arguments; `interaction_date` takes the column's
`CURRENT_TIMESTAMP` default). -/
def interactionRow (freshId : String) (cid ity : Value) (now : Int) (args : ArgBag) : Interaction :=
  ⟨freshId, cid, ity, bagGetD args "subject" (.text ""), bagGetD args "notes" (.text ""), now⟩

/-- The `add_interaction` branch. -/
def add_interaction (freshId : String) (now : Int) (args : ArgBag) (db : DB) : Outcome :=
  match bagFind? args "customer_id" with
  | none => ⟨db, [], [errMark ++ " Error adding interaction: 'customer_id'"]⟩
  | some cid =>
    match bagFind? args "interaction_type" with
    | none => ⟨db, [], [errMark ++ " Error adding interaction: 'interaction_type'"]⟩
    | some ity =>
      match insertInteraction (interactionRow freshId cid ity now args) db with
      | .ok db2 => ⟨db2, [.write], [okMark ++ " Interaction successfully added with ID: " ++ freshId]⟩
      | .error e => ⟨db, [.write], [errMark ++ " Error adding interaction: " ++ e]⟩

/-- The `params` tuple of the `add_deal` branch: `stage` defaults to
"prospecting", `probability` to 0.0, `expected_close_date` to `None`.  No
check of `stage` against the schema's enum happens anywhere here. -/
def dealRow (freshId : String) (cid dn v : Value) (args : ArgBag) : Deal :=
  ⟨freshId, cid, dn, v, bagGetD args "stage" (.text "prospecting"),
   bagGetD args "probability" (.real (Frac.ofInt 0)), bagGetD args "expected_close_date" .null⟩

/-- The `add_deal` branch.  Note there is no validation of `stage` here: the
schema's enum is advisory only and whatever value the bag carries is passed
to the INSERT. -/
def add_deal (freshId : String) (args : ArgBag) (db : DB) : Outcome :=
  match bagFind? args "customer_id" with
  | none => ⟨db, [], [errMark ++ " Error adding deal: 'customer_id'"]⟩
  | some cid =>
    match bagFind? args "deal_name" with
    | none => ⟨db, [], [errMark ++ " Error adding deal: 'deal_name'"]⟩
    | some dn =>
      match bagFind? args "value" with
      | none => ⟨db, [], [errMark ++ " Error adding deal: 'value'"]⟩
      | some v =>
        match insertDeal (dealRow freshId cid dn v args) db with
        | .ok db2 => ⟨db2, [.write], [okMark ++ " Deal successfully added with ID: " ++ freshId]⟩
        | .error e => ⟨db, [.write], [errMark ++ " Error adding deal: " ++ e]⟩

/-- The five hard-coded sample customers of `populate_sample_data`. -/
def sample_customers : List (String × String × String × String × String × String × Int × Int × String) :=
  [("John", "Doe", "john.doe@techcorp.com", "+1-555-0101", "TechCorp", "Technology", 5000000, 50, "website"),
   ("Jane", "Smith", "jane.smith@retailplus.com", "+1-555-0102", "RetailPlus", "Retail", 2000000, 25, "referral"),
   ("Bob", "Johnson", "bob@manufacturing.com", "+1-555-0103", "ManufacturingCo", "Manufacturing", 10000000, 100, "trade_show"),
   ("Alice", "Williams", "alice@healthsys.com", "+1-555-0104", "HealthSystems", "Healthcare", 15000000, 200, "cold_call"),
   ("Charlie", "Brown", "charlie@fintech.com", "+1-555-0105", "FinTech Solutions", "Financial", 8000000, 75, "linkedin")]

/-- Build the customer row inserted for one sample tuple. -/
def sampleCustomer (id : String) :
    String × String × String × String × String × String × Int × Int × String → Customer
  | (f, l, e, p, co, ind, rev, emp, src) =>
    ⟨id, .text f, .text l, .text e, .text p, .text co, .text ind, .int rev, .int emp,
     .text "active", .text src⟩

/-- The `populate_sample_data` branch: five `INSERT OR IGNORE` writes (a
constraint violation silently skips the row). -/
def populate_sample_data (fresh : Nat → String) (db : DB) : Outcome :=
  let step := fun (acc : DB × List BackendOp)
      (p : Nat × (String × String × String × String × String × String × Int × Int × String)) =>
    match insertCustomer (sampleCustomer (fresh p.1) p.2) acc.1 with
    | .ok db2 => (db2, acc.2 ++ [BackendOp.write])
    | .error _ => (acc.1, acc.2 ++ [BackendOp.write])
  let res := sample_customers.enum.foldl step (db, [])
  ⟨res.1, res.2, [okMark ++ " Sample data populated successfully! Added 5 sample customers."]⟩

/-- Keep the first occurrence of each sqlite-distinct value (the grouping keys
of a `GROUP BY`, in first-appearance order before the `ORDER BY`). -/
def dedupValuesAux (seen : List Value) : List Value → List Value
  | [] => []
  | v :: vs =>
    if seen.any (fun w => sqliteEq w v) then dedupValuesAux seen vs
    else v :: dedupValuesAux (v :: seen) vs

/-- Distinct values of a column, first occurrences first. -/
def dedupValues (l : List Value) : List Value := dedupValuesAux [] l

/-- Numeric coercion applied by sqlite aggregates (TEXT without a numeric
prefix counts as 0; numeric-text parsing is not modelled, no claim feeds text
into an aggregate). -/
def numCoerce : Value → Frac
  | .int i => Frac.ofInt i
  | .real q => q
  | _ => Frac.ofInt 0

/-- SQL `SUM`: NULL on an all-NULL (or empty) input, otherwise the sum of the
non-NULL values. -/
def sqlSum (vs : List Value) : Value :=
  let nn := vs.filter (fun v => !v.isNull)
  if nn.isEmpty then .null
  else .real (nn.foldl (fun acc v => Frac.add acc (numCoerce v)) (Frac.ofInt 0))

/-- SQL `AVG`: NULL on an all-NULL input, otherwise sum over count of the
non-NULL values. -/
def sqlAvg (vs : List Value) : Value :=
  let nn := vs.filter (fun v => !v.isNull)
  if nn.isEmpty then .null
  else .real (Frac.divNat (nn.foldl (fun acc v => Frac.add acc (numCoerce v)) (Frac.ofInt 0)) nn.length)

/-- SQL multiplication `value * probability` (NULL if either side is NULL). -/
def sqlMul (a b : Value) : Value :=
  if a.isNull || b.isNull then .null else .real (Frac.mul (numCoerce a) (numCoerce b))

/-- One output row of `analyze_customers_by_industry`. -/
structure IndustryRow where
  industry : Value
  customer_count : Nat
  avg_revenue : Value
  total_revenue : Value
  avg_employees : Value
deriving DecidableEq, Repr

/-- Render an industry group row. -/
def renderIndustryRow (r : IndustryRow) : String :=
  String.intercalate "; "
    ["industry=" ++ pyStr r.industry, "customer_count=" ++ toString r.customer_count,
     "avg_revenue=" ++ pyStr r.avg_revenue, "total_revenue=" ++ pyStr r.total_revenue,
     "avg_employees=" ++ pyStr r.avg_employees]

/-- The rows of the industry-analysis query: filter out empty industries,
group, aggregate, order by descending customer count. -/
def industry_rows (db : DB) : List IndustryRow :=
  let eligible := db.customers.filter (fun c => !c.industry.isNull && !(sqliteEq c.industry (.text "")))
  let groups := (dedupValues (eligible.map (·.industry))).map (fun ind =>
    let g := eligible.filter (fun c => sqliteEq c.industry ind)
    { industry := ind
      customer_count := g.length
      avg_revenue := sqlAvg (g.map (·.annual_revenue))
      total_revenue := sqlSum (g.map (·.annual_revenue))
      avg_employees := sqlAvg (g.map (·.employee_count)) : IndustryRow })
  List.insertionSort (fun r r' => r'.customer_count ≤ r.customer_count) groups

/-- The `analyze_customers_by_industry` branch. -/
def analyze_customers_by_industry (db : DB) : Outcome :=
  match industry_rows db with
  | [] => ⟨db, [.query], [chartMark ++ " No industry data available"]⟩
  | rows => ⟨db, [.query],
      [chartMark ++ " Customer Analysis by Industry:\n\n" ++
        String.intercalate "\n" (rows.map renderIndustryRow)]⟩

/-- One output row of `analyze_deal_pipeline`. -/
structure StageRow where
  stage : Value
  deal_count : Nat
  total_value : Value
  avg_deal_size : Value
  avg_probability : Value
  weighted_value : Value
deriving DecidableEq, Repr

/-- Render a pipeline stage row. -/
def renderStageRow (r : StageRow) : String :=
  String.intercalate "; "
    ["stage=" ++ pyStr r.stage, "deal_count=" ++ toString r.deal_count,
     "total_value=" ++ pyStr r.total_value, "avg_deal_size=" ++ pyStr r.avg_deal_size,
     "avg_probability=" ++ pyStr r.avg_probability, "weighted_value=" ++ pyStr r.weighted_value]

/-- The `CASE stage WHEN 'prospecting' THEN 1 … ELSE 7 END` rank. -/
def stageRank (v : Value) : Nat :=
  if sqliteEq v (.text "prospecting") then 1
  else if sqliteEq v (.text "qualification") then 2
  else if sqliteEq v (.text "proposal") then 3
  else if sqliteEq v (.text "negotiation") then 4
  else if sqliteEq v (.text "closed-won") then 5
  else if sqliteEq v (.text "closed-lost") then 6
  else 7

/-- The rows of the pipeline-analysis query: group deals by stage, aggregate,
order by the fixed stage rank. -/
def pipeline_rows (db : DB) : List StageRow :=
  let groups := (dedupValues (db.deals.map (·.stage))).map (fun s =>
    let g := db.deals.filter (fun d => sqliteEq d.stage s)
    { stage := s
      deal_count := g.length
      total_value := sqlSum (g.map (·.value))
      avg_deal_size := sqlAvg (g.map (·.value))
      avg_probability := sqlAvg (g.map (·.probability))
      weighted_value := sqlSum (g.map (fun d => sqlMul d.value d.probability)) : StageRow })
  List.insertionSort (fun r r' => stageRank r.stage ≤ stageRank r'.stage) groups

/-- The `analyze_deal_pipeline` branch. -/
def analyze_deal_pipeline (db : DB) : Outcome :=
  match pipeline_rows db with
  | [] => ⟨db, [.query], [trendMark ++ " No deals in pipeline"]⟩
  | rows => ⟨db, [.query],
      [trendMark ++ " Deal Pipeline Analysis:\n\n" ++
        String.intercalate "\n" (rows.map renderStageRow)]⟩

/-- The rows of the top-customers query: `WHERE annual_revenue > 0
ORDER BY annual_revenue DESC LIMIT 10` (the SELECT's column projection lives
in `renderTopRow`). -/
def top_customers_rows (db : DB) : List Customer :=
  (List.insertionSort (fun c c' => sqliteLe c'.annual_revenue c.annual_revenue = true)
    (db.customers.filter (fun c => sqliteGt c.annual_revenue (.int 0)))).take 10

/-- The `get_top_customers_by_revenue` branch. -/
def get_top_customers_by_revenue (db : DB) : Outcome :=
  match top_customers_rows db with
  | [] => ⟨db, [.query], [moneyMark ++ " No customers with revenue data found"]⟩
  | rows => ⟨db, [.query], [moneyMark ++ " Top Customers by Revenue:\n\n" ++ renderTopRows rows]⟩

/-- The time cutoff `datetime('now', '-' || days || ' days')`: an integer or
real `days` gives `now - days·86400` seconds; any other value makes the
modifier string invalid, so the comparison never matches. -/
def windowCutoff (now : Int) : Value → Option Frac
  | .int d => some (Frac.ofInt (now - d * 86400))
  | .real q => some (Frac.add (Frac.ofInt now) (Frac.mul ⟨-86400, 0⟩ q))
  | _ => none

/-- The join of `get_recent_interactions`:
`FROM interactions i JOIN customers c ON i.customer_id = c.id`. -/
def joinedInteractions (db : DB) : List (Interaction × Customer) :=
  db.interactions.flatMap (fun i =>
    (db.customers.filter (fun c => sqliteEq i.customer_id (.text c.id))).map (fun c => (i, c)))

/-- Render one joined interaction row (`i.*` plus the three joined customer
columns). -/
def renderRecentRow (p : Interaction × Customer) : String :=
  String.intercalate "; "
    ["id=" ++ p.1.id, "customer_id=" ++ pyStr p.1.customer_id,
     "interaction_type=" ++ pyStr p.1.interaction_type, "subject=" ++ pyStr p.1.subject,
     "notes=" ++ pyStr p.1.notes, "interaction_date=" ++ toString p.1.interaction_date,
     "first_name=" ++ pyStr p.2.first_name, "last_name=" ++ pyStr p.2.last_name,
     "company=" ++ pyStr p.2.company]

/-- The rows of the recent-interactions query for a given `days` value. -/
def recent_rows (now : Int) (days : Value) (db : DB) : List (Interaction × Customer) :=
  let kept := match windowCutoff now days with
    | none => []
    | some cut => (joinedInteractions db).filter (fun p => Frac.le cut (Frac.ofInt p.1.interaction_date))
  List.insertionSort (fun p q => q.1.interaction_date ≤ p.1.interaction_date) kept

/-- The `get_recent_interactions` branch (`days` defaults to 7). -/
def get_recent_interactions (now : Int) (args : ArgBag) (db : DB) : Outcome :=
  let days := bagGetD args "days" (.int 7)
  match recent_rows now days db with
  | [] => ⟨db, [.query], [calMark ++ " No interactions found in the last " ++ pyStr days ++ " days"]⟩
  | rows => ⟨db, [.query],
      [calMark ++ " Recent Interactions (Last " ++ pyStr days ++ " days):\n\n" ++
        String.intercalate "\n" (rows.map renderRecentRow)]⟩

/-- The registry of the CRM server: the tool names `handle_list_tools`
declares, in order, which are exactly the names `handle_call_tool` routes. -/
def toolNames : List String :=
  ["add_customer", "search_customers", "get_customer", "add_interaction", "add_deal",
   "populate_sample_data", "analyze_customers_by_industry", "analyze_deal_pipeline",
   "get_top_customers_by_revenue", "get_recent_interactions"]

/-- The CRM server's `handle_call_tool` dispatcher.  `fresh n` is the n-th
`uuid.uuid4()` the call generates, `now` the current timestamp.  An `Except`
error is a Python exception escaping the function (only the final
`raise ValueError(f"Unknown tool: {name}")` can). -/
def handle_call_tool (fresh : Nat → String) (now : Int) (name : String) (args : ArgBag)
    (db : DB) : Except PyExc Outcome :=
  if name = "add_customer" then .ok (add_customer (fresh 0) args db)
  else if name = "search_customers" then .ok (search_customers args db)
  else if name = "get_customer" then .ok (get_customer args db)
  else if name = "add_interaction" then .ok (add_interaction (fresh 0) now args db)
  else if name = "add_deal" then .ok (add_deal (fresh 0) args db)
  else if name = "populate_sample_data" then .ok (populate_sample_data fresh db)
  else if name = "analyze_customers_by_industry" then .ok (analyze_customers_by_industry db)
  else if name = "analyze_deal_pipeline" then .ok (analyze_deal_pipeline db)
  else if name = "get_top_customers_by_revenue" then .ok (get_top_customers_by_revenue db)
  else if name = "get_recent_interactions" then .ok (get_recent_interactions now args db)
  else .error (.valueError ("Unknown tool: " ++ name))

end SimpleMcp.CRM

namespace SimpleMcp.FileReader

open SimpleMcp

/-- Content a file can present to `open(...).read()`: UTF-8 text, binary
content (raising `UnicodeDecodeError`), or a permission failure. -/
inductive FileData where
  | readable (content : String)
  | binaryData
  | noPermission
deriving DecidableEq, Repr

/-- A directory's listing capability: its entry names, or a permission
failure on `os.listdir`. -/
inductive DirData where
  | listable (entries : List String)
  | denied
deriving DecidableEq, Repr

/-- The filesystem capability the file-reader server probes: the home
directory path and the files and directories by path. -/
structure FileSystem where
  home : String
  files : List (String × FileData)
  dirs : List (String × DirData)
deriving Repr

/-- Association-list lookup by path. -/
def lookupPath {α : Type} : List (String × α) → String → Option α
  | [], _ => none
  | (k', v) :: rest, k => if k' = k then some v else lookupPath rest k

/-- `os.path.exists`. -/
def pathExists (fs : FileSystem) (p : String) : Bool :=
  (lookupPath fs.files p).isSome || (lookupPath fs.dirs p).isSome

/-- `os.path.isfile`. -/
def isFile (fs : FileSystem) (p : String) : Bool := (lookupPath fs.files p).isSome

/-- `os.path.isdir`. -/
def isDir (fs : FileSystem) (p : String) : Bool := (lookupPath fs.dirs p).isSome

/-- `os.path.expanduser`: replace a leading `~` by the home directory (the
`~user` form for another user's home is left unchanged). -/
def expanduser (home path : String) : String :=
  if path = "~" then home
  else if charsIsPre "~/".data path.data then home ++ String.mk (path.data.drop 1)
  else path

/-- `os.path.join` for one component. -/
def osPathJoin (p item : String) : String :=
  if String.mk (item.data.take 1) = "/" then item
  else if String.mk (p.data.reverse.take 1) = "/" then p ++ item
  else p ++ "/" ++ item

/-- The `read_file` handler body after the (unprotected) argument access:
everything from the `try` on. -/
def read_file_body (fs : FileSystem) (file_path : String) : List String :=
  if !pathExists fs file_path then
    ["Error: File '" ++ file_path ++ "' does not exist"]
  else if !isFile fs file_path then
    ["Error: '" ++ file_path ++ "' is not a file"]
  else
    match lookupPath fs.files file_path with
    | some (.readable content) => ["Content of '" ++ file_path ++ "':\n\n" ++ content]
    | some .noPermission => ["Error: Permission denied reading '" ++ file_path ++ "'"]
    | some .binaryData =>
      ["Error: Cannot read '" ++ file_path ++ "' - file appears to be binary or not UTF-8 encoded"]
    | none => ["Error reading file: "]

/-- One listing entry with its directory-versus-file marker. -/
def entryLine (fs : FileSystem) (directory_path item : String) : String :=
  if isDir fs (osPathJoin directory_path item) then "📁 " ++ item ++ "/" else "📄 " ++ item

/-- The `list_files` handler body after default-filling and `~` expansion. -/
def list_files_body (fs : FileSystem) (directory_path : String) : List String :=
  if !pathExists fs directory_path then
    ["Error: Directory '" ++ directory_path ++ "' does not exist"]
  else if !isDir fs directory_path then
    ["Error: '" ++ directory_path ++ "' is not a directory"]
  else
    match lookupPath fs.dirs directory_path with
    | some (.listable names) =>
      let items := (List.insertionSort (fun a b => strLe a b = true) names).map
        (entryLine fs directory_path)
      ["Contents of '" ++ directory_path ++ "':\n\n" ++ String.intercalate "\n" items]
    | some .denied => ["Error: Permission denied accessing '" ++ directory_path ++ "'"]
    | none => ["Error listing directory: "]

/-- The Python type name of an argument-bag value, as it appears in the
`TypeError` message `os.fspath` raises on a non-path argument. -/
def pyTypeName : Value → String
  | .null => "NoneType"
  | .int _ => "int"
  | .real _ => "float"
  | .text _ => "str"

/-- `os.path.expanduser` applied to a raw argument-bag value: a string is
expanded, any other value raises
`TypeError("expected str, bytes or os.PathLike object, not …")` — and in
both handlers this call sits BEFORE the `try` block, so that exception
escapes `handle_call_tool` uncaught. -/
def expanduserArg (home : String) : Value → Except String String
  | .text p => .ok (expanduser home p)
  | v => .error ("expected str, bytes or os.PathLike object, not " ++ pyTypeName v)

/-- The registry of the file-reader server. -/
def toolNames : List String := ["read_file", "list_files"]

/-- The file-reader's `handle_call_tool`.  In `read_file` the subscript
`arguments["file_path"]` and the `expanduser` call happen BEFORE the `try`
block, so a missing `file_path` raises a `KeyError` and a non-string one a
`TypeError`, both escaping the handler; `list_files` reads its argument
with `.get` (no `KeyError`), but its `expanduser` call also precedes the
`try`, so a non-string `directory_path` escapes as a `TypeError` too. -/
def handle_call_tool (name : String) (args : ArgBag) (fs : FileSystem) :
    Except CRM.PyExc (List String) :=
  if name = "read_file" then
    match bagFind? args "file_path" with
    | none => .error (.keyError "file_path")
    | some v =>
      match expanduserArg fs.home v with
      | .error m => .error (.typeError m)
      | .ok fp => .ok (read_file_body fs fp)
  else if name = "list_files" then
    match expanduserArg fs.home (bagGetD args "directory_path" (.text "~")) with
    | .error m => .error (.typeError m)
    | .ok dp => .ok (list_files_body fs dp)
  else .error (.valueError ("Unknown tool: " ++ name))

end SimpleMcp.FileReader

namespace SimpleMcp

lemma Frac.den_pos (q : Frac) : 0 < q.den := Nat.succ_pos _

lemma Frac.le_iff (a b : Frac) : Frac.le a b = true ↔ a.toRat ≤ b.toRat := by
  have ha : (0 : ℚ) < (a.den : ℚ) := by exact_mod_cast a.den_pos
  have hb : (0 : ℚ) < (b.den : ℚ) := by exact_mod_cast b.den_pos
  rw [Frac.le, Frac.toRat, Frac.toRat, decide_eq_true_eq, div_le_div_iff₀ ha hb]
  exact_mod_cast Iff.rfl

lemma Frac.le_trans {a b c : Frac} (h1 : Frac.le a b = true) (h2 : Frac.le b c = true) :
    Frac.le a c = true := by
  rw [Frac.le_iff] at h1 h2 ⊢
  exact h1.trans h2

lemma Frac.le_total (a b : Frac) : Frac.le a b = true ∨ Frac.le b a = true := by
  rw [Frac.le_iff, Frac.le_iff]
  exact LinearOrder.le_total _ _

lemma Frac.toRat_ofInt (i : Int) : (Frac.ofInt i).toRat = (i : ℚ) := by
  simp [Frac.toRat, Frac.ofInt, Frac.den]

lemma charsLe_trans : ∀ a b c : List Char, charsLe a b = true → charsLe b c = true →
    charsLe a c = true := by
  intro a
  induction a with
  | nil => intro b c _ _; rfl
  | cons x xs ih =>
    intro b c hab hbc
    cases b with
    | nil => simp [charsLe] at hab
    | cons y ys =>
      cases c with
      | nil => simp [charsLe] at hbc
      | cons z zs =>
        simp only [charsLe] at hab hbc ⊢
        split_ifs at hab hbc ⊢ <;> first | rfl | omega | exact ih ys zs hab hbc

lemma charsLe_total : ∀ a b : List Char, charsLe a b = true ∨ charsLe b a = true := by
  intro a
  induction a with
  | nil => intro b; exact Or.inl rfl
  | cons x xs ih =>
    intro b
    cases b with
    | nil => exact Or.inr rfl
    | cons y ys =>
      simp only [charsLe]
      split_ifs <;> first | exact Or.inl rfl | exact Or.inr rfl | omega |
        simpa using ih ys

lemma sqliteLe_trans {a b c : Value} (h1 : sqliteLe a b = true) (h2 : sqliteLe b c = true) :
    sqliteLe a c = true := by
  cases a <;> cases b <;> cases c <;>
    simp only [sqliteLe, strLe] at h1 h2 ⊢ <;>
    first
      | rfl
      | trivial
      | exact h1
      | exact h2
      | exact h1.elim
      | exact h2.elim
      | exact Bool.noConfusion h1
      | exact Bool.noConfusion h2
      | exact Frac.le_trans h1 h2
      | exact charsLe_trans _ _ _ h1 h2

lemma sqliteLe_total (a b : Value) : sqliteLe a b = true ∨ sqliteLe b a = true := by
  cases a <;> cases b <;>
    simp only [sqliteLe, strLe] <;>
    first
      | exact Or.inl rfl
      | exact Or.inr rfl
      | exact Or.inl trivial
      | exact Or.inr trivial
      | simp
      | exact Frac.le_total _ _
      | exact charsLe_total _ _

end SimpleMcp

namespace SimpleMcp

lemma charsLe_refl : ∀ l : List Char, charsLe l l = true := by
  intro l
  induction l with
  | nil => rfl
  | cons x xs ih => simp [charsLe, ih]

lemma strLe_refl (s : String) : strLe s s = true := charsLe_refl s.data

lemma strLe_trans {a b c : String} (h1 : strLe a b = true) (h2 : strLe b c = true) :
    strLe a c = true := charsLe_trans _ _ _ h1 h2

lemma strLe_total (a b : String) : strLe a b = true ∨ strLe b a = true := charsLe_total _ _

lemma Frac.le_refl (a : Frac) : Frac.le a a = true := by
  rw [Frac.le_iff]

lemma sqliteLe_refl (v : Value) : sqliteLe v v = true := by
  cases v <;> simp only [sqliteLe] <;> first | rfl | exact Frac.le_refl _ | exact strLe_refl _

lemma sqliteEq_refl (v : Value) : sqliteEq v v = true := by
  simp [sqliteEq, sqliteLe_refl]

lemma bagGetD_some {args : ArgBag} {k : String} {v d : Value} (h : bagFind? args k = some v) :
    bagGetD args k d = v := by
  simp [bagGetD, h]

lemma bagGetD_none {args : ArgBag} {k : String} {d : Value} (h : bagFind? args k = none) :
    bagGetD args k d = d := by
  simp [bagGetD, h]

end SimpleMcp

namespace SimpleMcp.CRM

lemma insertCustomer_ok (c : Customer) (db : DB)
    (hf : c.first_name.isNull = false) (hl : c.last_name.isNull = false)
    (he : c.email.isNull = false)
    (hid : ∀ x ∈ db.customers, x.id ≠ c.id)
    (hem : ∀ x ∈ db.customers, sqliteEq x.email c.email = false) :
    insertCustomer c db = .ok { db with customers := db.customers ++ [c] } := by
  have h1 : (db.customers.any fun x => decide (x.id = c.id)) = false :=
    List.any_eq_false.mpr fun x hx => by simpa using hid x hx
  have h2 : (db.customers.any fun x => sqliteEq x.email c.email) = false :=
    List.any_eq_false.mpr fun x hx => by simp [hem x hx]
  simp [insertCustomer, hf, hl, he, h1, h2]

lemma insertCustomer_dup (c : Customer) (db : DB)
    (hf : c.first_name.isNull = false) (hl : c.last_name.isNull = false)
    (he : c.email.isNull = false)
    (hid : ∀ x ∈ db.customers, x.id ≠ c.id)
    (hdup : (db.customers.any fun x => sqliteEq x.email c.email) = true) :
    insertCustomer c db = .error "UNIQUE constraint failed: customers.email" := by
  have h1 : (db.customers.any fun x => decide (x.id = c.id)) = false :=
    List.any_eq_false.mpr fun x hx => by simpa using hid x hx
  simp [insertCustomer, hf, hl, he, h1, hdup]

lemma add_customer_ok (fid : String) (args : ArgBag) (db : DB)
    (hf : (customerRow fid args).first_name.isNull = false)
    (hl : (customerRow fid args).last_name.isNull = false)
    (he : (customerRow fid args).email.isNull = false)
    (hid : ∀ x ∈ db.customers, x.id ≠ fid)
    (hem : ∀ x ∈ db.customers, sqliteEq x.email (customerRow fid args).email = false) :
    add_customer fid args db =
      ⟨{ db with customers := db.customers ++ [customerRow fid args] }, [.write],
       [okMark ++ " Customer successfully added with ID: " ++ fid]⟩ := by
  have hins : insertCustomer (customerRow fid args) db =
      .ok { db with customers := db.customers ++ [customerRow fid args] } :=
    insertCustomer_ok _ _ hf hl he hid hem
  simp [add_customer, hins]

lemma add_customer_dup (fid : String) (args : ArgBag) (db : DB)
    (hf : (customerRow fid args).first_name.isNull = false)
    (hl : (customerRow fid args).last_name.isNull = false)
    (he : (customerRow fid args).email.isNull = false)
    (hid : ∀ x ∈ db.customers, x.id ≠ fid)
    (hdup : (db.customers.any fun x => sqliteEq x.email (customerRow fid args).email) = true) :
    add_customer fid args db =
      ⟨db, [.write],
       [errMark ++ " Error: Customer with email " ++ pyOptStr (bagFind? args "email") ++
        " already exists"]⟩ := by
  have hins := insertCustomer_dup _ _ hf hl he hid hdup
  have hc : strContains "UNIQUE constraint failed: customers.email"
      "UNIQUE constraint failed: customers.email" = true := by decide
  simp [add_customer, hins, hc]

lemma add_interaction_ok (fid : String) (now : Int) (args : ArgBag) (db : DB) (cid ity : Value)
    (hc : bagFind? args "customer_id" = some cid) (hcn : cid.isNull = false)
    (hi : bagFind? args "interaction_type" = some ity) (hin : ity.isNull = false)
    (hid : ∀ x ∈ db.interactions, x.id ≠ fid) :
    add_interaction fid now args db =
      ⟨{ db with interactions := db.interactions ++ [interactionRow fid cid ity now args] },
       [.write], [okMark ++ " Interaction successfully added with ID: " ++ fid]⟩ := by
  have h1 : (db.interactions.any fun x => decide (x.id = fid)) = false :=
    List.any_eq_false.mpr fun x hx => by simpa using hid x hx
  simp [add_interaction, hc, hi, insertInteraction, interactionRow, hcn, hin, h1]

lemma add_deal_ok (fid : String) (args : ArgBag) (db : DB) (cid dn v : Value)
    (hc : bagFind? args "customer_id" = some cid) (hcn : cid.isNull = false)
    (hd : bagFind? args "deal_name" = some dn) (hdn : dn.isNull = false)
    (hv : bagFind? args "value" = some v) (hvn : v.isNull = false)
    (hid : ∀ x ∈ db.deals, x.id ≠ fid) :
    add_deal fid args db =
      ⟨{ db with deals := db.deals ++ [dealRow fid cid dn v args] },
       [.write], [okMark ++ " Deal successfully added with ID: " ++ fid]⟩ := by
  have h1 : (db.deals.any fun x => decide (x.id = fid)) = false :=
    List.any_eq_false.mpr fun x hx => by simpa using hid x hx
  simp [add_deal, hc, hd, hv, insertDeal, dealRow, hcn, hdn, hvn, h1]

end SimpleMcp.CRM

namespace SimpleMcp.FileReader

open SimpleMcp

lemma list_files_body_not_exists (fs : FileSystem) (p : String)
    (h : pathExists fs p = false) :
    list_files_body fs p = ["Error: Directory '" ++ p ++ "' does not exist"] := by
  simp [list_files_body, h]

lemma list_files_body_not_dir (fs : FileSystem) (p : String)
    (hex : pathExists fs p = true) (hd : isDir fs p = false) :
    list_files_body fs p = ["Error: '" ++ p ++ "' is not a directory"] := by
  simp [list_files_body, hex, hd]

lemma list_files_body_listing (fs : FileSystem) (p : String) (names : List String)
    (h : lookupPath fs.dirs p = some (.listable names)) :
    list_files_body fs p =
      ["Contents of '" ++ p ++ "':\n\n" ++
        String.intercalate "\n"
          ((List.insertionSort (fun a b => strLe a b = true) names).map (entryLine fs p))] := by
  have hd : isDir fs p = true := by simp [isDir, h]
  have hex : pathExists fs p = true := by simp [pathExists, isDir] at hd ⊢; right; exact hd
  simp [list_files_body, hex, hd, h]

end SimpleMcp.FileReader

open SimpleMcp

/-- C1 counterexample: `read_file` is a known tool of the file-reader server,
yet dispatching it with an argument bag lacking `file_path` raises an
uncaught `KeyError` (the subscript `arguments["file_path"]` sits before the
handler's `try` block), so a handler failure does escape the dispatch
boundary for a known tool. -/
theorem C1_counterexample :
    FileReader.handle_call_tool "read_file" [] ⟨"/home/user", [], []⟩ =
      .error (.keyError "file_path") := rfl

/-- C1 (amended): dispatch of any known CRM tool always returns a result (a
CallResult of text blocks), for every argument bag and database state — in
the CRM server every argument access sits inside the handler's `try`.  In
the file-reader server both handlers touch their path argument BEFORE the
`try` block, so two failure shapes escape the dispatch boundary besides the
intentional unknown-tool error: `list_files` returns a result whenever the
`directory_path` value (or its omitted-case default "~") is a string, but a
non-string value escapes as an uncaught `TypeError` from
`os.path.expanduser`; `read_file` returns a result whenever `file_path` is
present and a string, while an absent `file_path` escapes as an uncaught
`KeyError` and a non-string one as the same uncaught `TypeError`. -/
theorem C1_amended :
    (∀ (fresh : Nat → String) (now : Int) (name : String) (args : ArgBag) (db : CRM.DB),
        name ∈ CRM.toolNames → ∃ o, CRM.handle_call_tool fresh now name args db = .ok o) ∧
    (∀ (args : ArgBag) (fs : FileReader.FileSystem) (dp : String),
        bagGetD args "directory_path" (.text "~") = .text dp →
        ∃ bs, FileReader.handle_call_tool "list_files" args fs = .ok bs) ∧
    (∀ (args : ArgBag) (fs : FileReader.FileSystem) (v : Value),
        bagGetD args "directory_path" (.text "~") = v → (∀ s : String, v ≠ .text s) →
        FileReader.handle_call_tool "list_files" args fs =
          .error (.typeError ("expected str, bytes or os.PathLike object, not " ++
            FileReader.pyTypeName v))) ∧
    (∀ (args : ArgBag) (fs : FileReader.FileSystem) (fp : String),
        bagFind? args "file_path" = some (.text fp) →
        ∃ bs, FileReader.handle_call_tool "read_file" args fs = .ok bs) ∧
    (∀ (args : ArgBag) (fs : FileReader.FileSystem),
        bagFind? args "file_path" = none →
        FileReader.handle_call_tool "read_file" args fs = .error (.keyError "file_path")) ∧
    (∀ (args : ArgBag) (fs : FileReader.FileSystem) (v : Value),
        bagFind? args "file_path" = some v → (∀ s : String, v ≠ .text s) →
        FileReader.handle_call_tool "read_file" args fs =
          .error (.typeError ("expected str, bytes or os.PathLike object, not " ++
            FileReader.pyTypeName v))) := by
  refine ⟨?_, ?_, ?_, ?_, ?_, ?_⟩
  · intro fresh now name args db h
    simp only [CRM.toolNames, List.mem_cons, List.not_mem_nil, or_false] at h
    rcases h with rfl | rfl | rfl | rfl | rfl | rfl | rfl | rfl | rfl | rfl
    all_goals exact ⟨_, rfl⟩
  · intro args fs dp h
    refine ⟨FileReader.list_files_body fs (FileReader.expanduser fs.home dp), ?_⟩
    simp [FileReader.handle_call_tool, h, FileReader.expanduserArg]
  · intro args fs v h hnt
    rw [show FileReader.handle_call_tool "list_files" args fs =
      (match FileReader.expanduserArg fs.home (bagGetD args "directory_path" (.text "~")) with
        | .error m => .error (.typeError m)
        | .ok dp => .ok (FileReader.list_files_body fs dp)) from rfl, h]
    cases v with
    | text s => exact absurd rfl (hnt s)
    | null => rfl
    | int i => rfl
    | real q => rfl
  · intro args fs fp h
    refine ⟨FileReader.read_file_body fs (FileReader.expanduser fs.home fp), ?_⟩
    simp [FileReader.handle_call_tool, h, FileReader.expanduserArg]
  · intro args fs h
    simp [FileReader.handle_call_tool, h]
  · intro args fs v h hnt
    rw [show FileReader.handle_call_tool "read_file" args fs =
      (match bagFind? args "file_path" with
        | none => .error (.keyError "file_path")
        | some w =>
          match FileReader.expanduserArg fs.home w with
          | .error m => .error (.typeError m)
          | .ok fp => .ok (FileReader.read_file_body fs fp)) from rfl, h]
    cases v with
    | text s => exact absurd rfl (hnt s)
    | null => rfl
    | int i => rfl
    | real q => rfl

/-- C1 witness: the amended theorem applied at concrete inputs — a CRM call
and a well-formed `list_files` and `read_file` call return results, while a
numeric `directory_path`, a missing `file_path` and a null `file_path`
escape as the stated exceptions. -/
theorem C1_amended_witness :
    (∃ o, CRM.handle_call_tool (fun _ => "u0") 0 "populate_sample_data" [] ⟨[], [], []⟩ = .ok o) ∧
    (∃ bs, FileReader.handle_call_tool "list_files" []
        ⟨"/h", [], [("/h", .listable [])]⟩ = .ok bs) ∧
    (FileReader.handle_call_tool "list_files" [("directory_path", .int 5)]
        ⟨"/h", [], [("/h", .listable [])]⟩ =
      .error (.typeError ("expected str, bytes or os.PathLike object, not " ++
        FileReader.pyTypeName (.int 5)))) ∧
    (∃ bs, FileReader.handle_call_tool "read_file" [("file_path", .text "/h/a.txt")]
        ⟨"/h", [("/h/a.txt", .readable "hello")], []⟩ = .ok bs) ∧
    (FileReader.handle_call_tool "read_file" [] ⟨"/h", [], []⟩ =
      .error (.keyError "file_path")) ∧
    (FileReader.handle_call_tool "read_file" [("file_path", .null)] ⟨"/h", [], []⟩ =
      .error (.typeError ("expected str, bytes or os.PathLike object, not " ++
        FileReader.pyTypeName .null))) :=
  ⟨C1_amended.1 (fun _ => "u0") 0 "populate_sample_data" [] ⟨[], [], []⟩ (by decide),
   C1_amended.2.1 [] ⟨"/h", [], [("/h", .listable [])]⟩ "~" rfl,
   C1_amended.2.2.1 [("directory_path", .int 5)] ⟨"/h", [], [("/h", .listable [])]⟩
     (.int 5) rfl (fun s hs => Value.noConfusion hs),
   C1_amended.2.2.2.1 [("file_path", .text "/h/a.txt")]
     ⟨"/h", [("/h/a.txt", .readable "hello")], []⟩ "/h/a.txt" rfl,
   C1_amended.2.2.2.2.1 [] ⟨"/h", [], []⟩ rfl,
   C1_amended.2.2.2.2.2 [("file_path", .null)] ⟨"/h", [], []⟩ .null rfl
     (fun s hs => Value.noConfusion hs)⟩

/-- C2 counterexample: `add_customer` with an empty argument bag — the
required `email` (and `first_name`, `last_name`) are missing, yet dispatch
does NOT return an error naming the field: it substitutes empty strings,
performs the backend write, and reports success. -/
theorem C2_counterexample :
    CRM.handle_call_tool (fun _ => "id0") 0 "add_customer" [] ⟨[], [], []⟩ =
      .ok ⟨⟨[⟨"id0", .text "", .text "", .text "", .text "", .text "", .text "",
              .real ⟨0, 0⟩, .int 0, .text "active", .text ""⟩], [], []⟩,
           [.write], [CRM.okMark ++ " Customer successfully added with ID: id0"]⟩ := rfl

/-- C2 (amended): for the tools that read a required field by subscript
(`search_customers`, `get_customer`, `add_interaction`, `add_deal`), a bag
omitting that field yields an Error content block whose text carries the
missing field's name, with zero backend invocations.  `add_customer`
instead silently substitutes the empty string for a missing required field
and proceeds to the insert; and the file reader's `read_file` raises an
uncaught `KeyError` rather than returning a block. -/
theorem C2_amended :
    (∀ (fresh : Nat → String) (now : Int) (args : ArgBag) (db : CRM.DB),
        bagFind? args "search_term" = none →
        CRM.handle_call_tool fresh now "search_customers" args db =
          .ok ⟨db, [], [CRM.errMark ++ " Error searching customers: 'search_term'"]⟩) ∧
    (∀ fresh now args (db : CRM.DB),
        bagFind? args "customer_id" = none →
        CRM.handle_call_tool fresh now "get_customer" args db =
          .ok ⟨db, [], [CRM.errMark ++ " Error retrieving customer: 'customer_id'"]⟩) ∧
    (∀ fresh now args (db : CRM.DB),
        bagFind? args "customer_id" = none →
        CRM.handle_call_tool fresh now "add_interaction" args db =
          .ok ⟨db, [], [CRM.errMark ++ " Error adding interaction: 'customer_id'"]⟩) ∧
    (∀ fresh now args (db : CRM.DB) cid,
        bagFind? args "customer_id" = some cid →
        bagFind? args "interaction_type" = none →
        CRM.handle_call_tool fresh now "add_interaction" args db =
          .ok ⟨db, [], [CRM.errMark ++ " Error adding interaction: 'interaction_type'"]⟩) ∧
    (∀ fresh now args (db : CRM.DB),
        bagFind? args "customer_id" = none →
        CRM.handle_call_tool fresh now "add_deal" args db =
          .ok ⟨db, [], [CRM.errMark ++ " Error adding deal: 'customer_id'"]⟩) ∧
    (∀ fresh now args (db : CRM.DB) cid,
        bagFind? args "customer_id" = some cid →
        bagFind? args "deal_name" = none →
        CRM.handle_call_tool fresh now "add_deal" args db =
          .ok ⟨db, [], [CRM.errMark ++ " Error adding deal: 'deal_name'"]⟩) ∧
    (∀ fresh now args (db : CRM.DB) cid dn,
        bagFind? args "customer_id" = some cid →
        bagFind? args "deal_name" = some dn →
        bagFind? args "value" = none →
        CRM.handle_call_tool fresh now "add_deal" args db =
          .ok ⟨db, [], [CRM.errMark ++ " Error adding deal: 'value'"]⟩) ∧
    (∀ (fresh : Nat → String) now args (db : CRM.DB),
        bagFind? args "email" = none →
        (bagGetD args "first_name" (.text "")).isNull = false →
        (bagGetD args "last_name" (.text "")).isNull = false →
        (∀ x ∈ db.customers, sqliteEq x.email (.text "") = false) →
        (∀ x ∈ db.customers, x.id ≠ fresh 0) →
        ∃ c, CRM.handle_call_tool fresh now "add_customer" args db =
            .ok ⟨{ db with customers := db.customers ++ [c] }, [.write],
                 [CRM.okMark ++ " Customer successfully added with ID: " ++ fresh 0]⟩ ∧
          c.email = .text "") ∧
    (∀ (args : ArgBag) (fs : FileReader.FileSystem),
        bagFind? args "file_path" = none →
        FileReader.handle_call_tool "read_file" args fs = .error (.keyError "file_path")) := by
  refine ⟨?_, ?_, ?_, ?_, ?_, ?_, ?_, ?_, ?_⟩
  · intro fresh now args db h
    have hd : CRM.handle_call_tool fresh now "search_customers" args db =
        .ok (CRM.search_customers args db) := rfl
    rw [hd]
    simp [CRM.search_customers, h]
  · intro fresh now args db h
    have hd : CRM.handle_call_tool fresh now "get_customer" args db =
        .ok (CRM.get_customer args db) := rfl
    rw [hd]
    simp [CRM.get_customer, h]
  · intro fresh now args db h
    have hd : CRM.handle_call_tool fresh now "add_interaction" args db =
        .ok (CRM.add_interaction (fresh 0) now args db) := rfl
    rw [hd]
    simp [CRM.add_interaction, h]
  · intro fresh now args db cid h1 h2
    have hd : CRM.handle_call_tool fresh now "add_interaction" args db =
        .ok (CRM.add_interaction (fresh 0) now args db) := rfl
    rw [hd]
    simp [CRM.add_interaction, h1, h2]
  · intro fresh now args db h
    have hd : CRM.handle_call_tool fresh now "add_deal" args db =
        .ok (CRM.add_deal (fresh 0) args db) := rfl
    rw [hd]
    simp [CRM.add_deal, h]
  · intro fresh now args db cid h1 h2
    have hd : CRM.handle_call_tool fresh now "add_deal" args db =
        .ok (CRM.add_deal (fresh 0) args db) := rfl
    rw [hd]
    simp [CRM.add_deal, h1, h2]
  · intro fresh now args db cid dn h1 h2 h3
    have hd : CRM.handle_call_tool fresh now "add_deal" args db =
        .ok (CRM.add_deal (fresh 0) args db) := rfl
    rw [hd]
    simp [CRM.add_deal, h1, h2, h3]
  · intro fresh now args db h hf hl hem hid
    have hd : CRM.handle_call_tool fresh now "add_customer" args db =
        .ok (CRM.add_customer (fresh 0) args db) := rfl
    refine ⟨CRM.customerRow (fresh 0) args, ?_, ?_⟩
    · rw [hd, CRM.add_customer_ok (fresh 0) args db ?_ ?_ ?_ hid ?_]
      · simpa [CRM.customerRow] using hf
      · simpa [CRM.customerRow] using hl
      · simp [CRM.customerRow, bagGetD_none h, Value.isNull]
      · intro x hx
        simpa [CRM.customerRow, bagGetD_none h] using hem x hx
    · simp [CRM.customerRow, bagGetD_none h]
  · intro args fs h
    simp [FileReader.handle_call_tool, h]

/-- C2 witness: the amended theorem applied at concrete inputs (all seven
subscripting cases, the add_customer default-substitution case, and the
read_file KeyError case) on an empty database over empty or minimal bags. -/
theorem C2_amended_witness :
    (CRM.handle_call_tool (fun _ => "u") 0 "search_customers" [] ⟨[], [], []⟩ =
      .ok ⟨⟨[], [], []⟩, [], [CRM.errMark ++ " Error searching customers: 'search_term'"]⟩) ∧
    (CRM.handle_call_tool (fun _ => "u") 0 "get_customer" [] ⟨[], [], []⟩ =
      .ok ⟨⟨[], [], []⟩, [], [CRM.errMark ++ " Error retrieving customer: 'customer_id'"]⟩) ∧
    (CRM.handle_call_tool (fun _ => "u") 0 "add_interaction" [] ⟨[], [], []⟩ =
      .ok ⟨⟨[], [], []⟩, [], [CRM.errMark ++ " Error adding interaction: 'customer_id'"]⟩) ∧
    (CRM.handle_call_tool (fun _ => "u") 0 "add_interaction" [("customer_id", .text "c")] ⟨[], [], []⟩ =
      .ok ⟨⟨[], [], []⟩, [], [CRM.errMark ++ " Error adding interaction: 'interaction_type'"]⟩) ∧
    (CRM.handle_call_tool (fun _ => "u") 0 "add_deal" [] ⟨[], [], []⟩ =
      .ok ⟨⟨[], [], []⟩, [], [CRM.errMark ++ " Error adding deal: 'customer_id'"]⟩) ∧
    (CRM.handle_call_tool (fun _ => "u") 0 "add_deal" [("customer_id", .text "c")] ⟨[], [], []⟩ =
      .ok ⟨⟨[], [], []⟩, [], [CRM.errMark ++ " Error adding deal: 'deal_name'"]⟩) ∧
    (CRM.handle_call_tool (fun _ => "u") 0 "add_deal"
        [("customer_id", .text "c"), ("deal_name", .text "D")] ⟨[], [], []⟩ =
      .ok ⟨⟨[], [], []⟩, [], [CRM.errMark ++ " Error adding deal: 'value'"]⟩) ∧
    (∃ c, CRM.handle_call_tool (fun _ => "u") 0 "add_customer"
        [("first_name", .text "A"), ("last_name", .text "B")] ⟨[], [], []⟩ =
      .ok ⟨⟨[] ++ [c], [], []⟩, [.write],
           [CRM.okMark ++ " Customer successfully added with ID: u"]⟩ ∧ c.email = .text "") ∧
    (FileReader.handle_call_tool "read_file" [] ⟨"/h", [], []⟩ = .error (.keyError "file_path")) :=
  ⟨C2_amended.1 (fun _ => "u") 0 [] ⟨[], [], []⟩ rfl,
   C2_amended.2.1 (fun _ => "u") 0 [] ⟨[], [], []⟩ rfl,
   C2_amended.2.2.1 (fun _ => "u") 0 [] ⟨[], [], []⟩ rfl,
   C2_amended.2.2.2.1 (fun _ => "u") 0 [("customer_id", .text "c")] ⟨[], [], []⟩ (.text "c") rfl rfl,
   C2_amended.2.2.2.2.1 (fun _ => "u") 0 [] ⟨[], [], []⟩ rfl,
   C2_amended.2.2.2.2.2.1 (fun _ => "u") 0 [("customer_id", .text "c")] ⟨[], [], []⟩
     (.text "c") rfl rfl,
   C2_amended.2.2.2.2.2.2.1 (fun _ => "u") 0 [("customer_id", .text "c"), ("deal_name", .text "D")]
     ⟨[], [], []⟩ (.text "c") (.text "D") rfl rfl rfl,
   C2_amended.2.2.2.2.2.2.2.1 (fun _ => "u") 0
     [("first_name", .text "A"), ("last_name", .text "B")] ⟨[], [], []⟩ rfl (by decide) (by decide)
     (by intro x hx; cases hx) (by intro x hx; cases hx),
   C2_amended.2.2.2.2.2.2.2.2 [] ⟨"/h", [], []⟩ rfl⟩

/-- C3 counterexample: `add_deal` with `stage` set to "bogus" — a value
outside the schema's declared enum — is not rejected: the dispatcher
returns a success block, the backend write happens, and the bogus stage is
stored verbatim in the deals table. -/
theorem C3_counterexample :
    CRM.handle_call_tool (fun _ => "d1") 0 "add_deal"
        [("customer_id", .text "c1"), ("deal_name", .text "D"), ("value", .int 5),
         ("stage", .text "bogus")] ⟨[], [], []⟩ =
      .ok ⟨⟨[], [], [⟨"d1", .text "c1", .text "D", .int 5, .text "bogus", .real ⟨0, 0⟩, .null⟩]⟩,
           [.write], [CRM.okMark ++ " Deal successfully added with ID: d1"]⟩ := rfl

/-- C3 (amended): the allowed-values check is enforced only for
`search_customers.search_field` — a value outside
{all, name, email, company, industry} yields an Error identifying it with
zero backend invocations.  For `add_deal.stage` the schema enum is advisory
only: any supplied stage value is stored verbatim by the insert. -/
theorem C3_amended :
    (∀ (fresh : Nat → String) (now : Int) (args : ArgBag) (db : CRM.DB) (term sf : Value),
        bagFind? args "search_term" = some term →
        bagGetD args "search_field" (.text "all") = sf →
        sf ∉ ([.text "all", .text "name", .text "email", .text "company", .text "industry"] :
          List Value) →
        CRM.handle_call_tool fresh now "search_customers" args db =
          .ok ⟨db, [], [CRM.errMark ++ " Invalid search field: " ++ pyStr sf ++
            ". Use: all, name, email, company, or industry"]⟩) ∧
    (∀ (fresh : Nat → String) (now : Int) (args : ArgBag) (db : CRM.DB) (cid dn v sv : Value),
        bagFind? args "customer_id" = some cid → cid.isNull = false →
        bagFind? args "deal_name" = some dn → dn.isNull = false →
        bagFind? args "value" = some v → v.isNull = false →
        bagFind? args "stage" = some sv →
        (∀ x ∈ db.deals, x.id ≠ fresh 0) →
        ∃ d, CRM.handle_call_tool fresh now "add_deal" args db =
            .ok ⟨{ db with deals := db.deals ++ [d] }, [.write],
                 [CRM.okMark ++ " Deal successfully added with ID: " ++ fresh 0]⟩ ∧
          d.stage = sv) := by
  refine ⟨?_, ?_⟩
  · intro fresh now args db term sf hterm hsf hmem
    simp only [List.mem_cons, List.not_mem_nil, or_false] at hmem
    push_neg at hmem
    obtain ⟨h1, h2, h3, h4, h5⟩ := hmem
    have hd : CRM.handle_call_tool fresh now "search_customers" args db =
        .ok (CRM.search_customers args db) := rfl
    rw [hd]
    simp [CRM.search_customers, hterm, hsf, h1, h2, h3, h4, h5]
  · intro fresh now args db cid dn v sv hc hcn hdn hdnn hv hvn hst hid
    have hd : CRM.handle_call_tool fresh now "add_deal" args db =
        .ok (CRM.add_deal (fresh 0) args db) := rfl
    refine ⟨CRM.dealRow (fresh 0) cid dn v args, ?_, ?_⟩
    · rw [hd, CRM.add_deal_ok (fresh 0) args db cid dn v hc hcn hdn hdnn hv hvn hid]
    · simp [CRM.dealRow, bagGetD_some hst]

/-- C3 witness: the amended theorem at concrete inputs — an invalid
search_field "bogus" produces the invalid-field error without backend calls,
and add_deal stores the off-enum stage "weird" verbatim. -/
theorem C3_amended_witness :
    (CRM.handle_call_tool (fun _ => "u") 0 "search_customers"
        [("search_term", .text "x"), ("search_field", .text "bogus")] ⟨[], [], []⟩ =
      .ok ⟨⟨[], [], []⟩, [], [CRM.errMark ++ " Invalid search field: bogus" ++
        ". Use: all, name, email, company, or industry"]⟩) ∧
    (∃ d, CRM.handle_call_tool (fun _ => "d9") 0 "add_deal"
        [("customer_id", .text "nobody"), ("deal_name", .text "D"), ("value", .int 1),
         ("stage", .text "weird")] ⟨[], [], []⟩ =
      .ok ⟨⟨[], [], [] ++ [d]⟩, [.write],
           [CRM.okMark ++ " Deal successfully added with ID: d9"]⟩ ∧ d.stage = .text "weird") := by
  constructor
  · have := C3_amended.1 (fun _ => "u") 0
      [("search_term", .text "x"), ("search_field", .text "bogus")] ⟨[], [], []⟩
      (.text "x") (.text "bogus") rfl rfl (by decide)
    simpa [pyStr] using this
  · exact C3_amended.2 (fun _ => "d9") 0
      [("customer_id", .text "nobody"), ("deal_name", .text "D"), ("value", .int 1),
       ("stage", .text "weird")] ⟨[], [], []⟩
      (.text "nobody") (.text "D") (.int 1) (.text "weird") rfl rfl rfl rfl rfl rfl rfl
      (by intro x hx; cases hx)

/-- C4: a tool name outside either server's registry is answered by the
hard `ValueError ("Unknown tool: …")` raised past the dispatch boundary —
an escaping exception, never a content block. -/
theorem C4_unknown_tool :
    (∀ (fresh : Nat → String) (now : Int) (name : String) (args : ArgBag) (db : CRM.DB),
        name ∉ CRM.toolNames →
        CRM.handle_call_tool fresh now name args db =
          .error (.valueError ("Unknown tool: " ++ name))) ∧
    (∀ (name : String) (args : ArgBag) (fs : FileReader.FileSystem),
        name ∉ FileReader.toolNames →
        FileReader.handle_call_tool name args fs =
          .error (.valueError ("Unknown tool: " ++ name))) := by
  refine ⟨?_, ?_⟩
  · intro fresh now name args db h
    simp only [CRM.toolNames, List.mem_cons, List.not_mem_nil, or_false] at h
    push_neg at h
    obtain ⟨h1, h2, h3, h4, h5, h6, h7, h8, h9, h10⟩ := h
    simp [CRM.handle_call_tool, h1, h2, h3, h4, h5, h6, h7, h8, h9, h10]
  · intro name args fs h
    simp only [FileReader.toolNames, List.mem_cons, List.not_mem_nil, or_false] at h
    push_neg at h
    obtain ⟨h1, h2⟩ := h
    simp [FileReader.handle_call_tool, h1, h2]

/-- C4 witness: the unknown name "frobnicate" gets the hard ValueError from
both servers. -/
theorem C4_unknown_tool_witness :
    (CRM.handle_call_tool (fun _ => "u") 0 "frobnicate" [] ⟨[], [], []⟩ =
      .error (.valueError ("Unknown tool: " ++ "frobnicate"))) ∧
    (FileReader.handle_call_tool "frobnicate" [] ⟨"/h", [], []⟩ =
      .error (.valueError ("Unknown tool: " ++ "frobnicate"))) :=
  ⟨C4_unknown_tool.1 (fun _ => "u") 0 "frobnicate" [] ⟨[], [], []⟩ (by decide),
   C4_unknown_tool.2 "frobnicate" [] ⟨"/h", [], []⟩ (by decide)⟩

/-- C5: two `add_customer` calls with the same email — the first (on a
database with no such email and a fresh id) succeeds and leaves exactly one
row with that email; the second is answered by the bespoke duplicate-email
message naming the email (translated from the sqlite UNIQUE violation, not a
generic database error) and leaves the table unchanged. -/
theorem C5_duplicate_email :
    ∀ (fresh1 fresh2 : Nat → String) (now1 now2 : Int) (args1 args2 : ArgBag) (db : CRM.DB)
      (e : String),
      bagFind? args1 "email" = some (.text e) →
      bagFind? args2 "email" = some (.text e) →
      (bagGetD args1 "first_name" (.text "")).isNull = false →
      (bagGetD args1 "last_name" (.text "")).isNull = false →
      (bagGetD args2 "first_name" (.text "")).isNull = false →
      (bagGetD args2 "last_name" (.text "")).isNull = false →
      (∀ x ∈ db.customers, sqliteEq x.email (.text e) = false) →
      (∀ x ∈ db.customers, x.id ≠ fresh1 0) →
      (∀ x ∈ db.customers, x.id ≠ fresh2 0) →
      fresh2 0 ≠ fresh1 0 →
      ∃ db2,
        CRM.handle_call_tool fresh1 now1 "add_customer" args1 db =
          .ok ⟨db2, [.write],
               [CRM.okMark ++ " Customer successfully added with ID: " ++ fresh1 0]⟩ ∧
        (db2.customers.filter fun c => sqliteEq c.email (.text e)).length = 1 ∧
        CRM.handle_call_tool fresh2 now2 "add_customer" args2 db2 =
          .ok ⟨db2, [.write],
               [CRM.errMark ++ " Error: Customer with email " ++ e ++ " already exists"]⟩ := by
  intro fresh1 fresh2 now1 now2 args1 args2 db e h1 h2 hf1 hl1 hf2 hl2 hem hid1 hid2 hne
  have hrow1 : (CRM.customerRow (fresh1 0) args1).email = .text e := by
    simp [CRM.customerRow, bagGetD_some h1]
  have hrow2 : (CRM.customerRow (fresh2 0) args2).email = .text e := by
    simp [CRM.customerRow, bagGetD_some h2]
  refine ⟨{ db with customers := db.customers ++ [CRM.customerRow (fresh1 0) args1] },
    ?_, ?_, ?_⟩
  · have hd : CRM.handle_call_tool fresh1 now1 "add_customer" args1 db =
        .ok (CRM.add_customer (fresh1 0) args1 db) := rfl
    have hok := CRM.add_customer_ok (fresh1 0) args1 db
      (by simpa [CRM.customerRow] using hf1) (by simpa [CRM.customerRow] using hl1)
      (by rw [hrow1]; rfl) hid1 (fun x hx => by rw [hrow1]; exact hem x hx)
    rw [hd, hok]
  · show ((db.customers ++ [CRM.customerRow (fresh1 0) args1]).filter _).length = 1
    rw [List.filter_append]
    have hfl : (db.customers.filter fun c => sqliteEq c.email (.text e)) = [] :=
      List.filter_eq_nil_iff.mpr fun x hx => by simp [hem x hx]
    simp [hfl, hrow1, sqliteEq_refl]
  · have hd : CRM.handle_call_tool fresh2 now2 "add_customer" args2
        { db with customers := db.customers ++ [CRM.customerRow (fresh1 0) args1] } =
        .ok (CRM.add_customer (fresh2 0) args2
          { db with customers := db.customers ++ [CRM.customerRow (fresh1 0) args1] }) := rfl
    have hid2' : ∀ x ∈ db.customers ++ [CRM.customerRow (fresh1 0) args1], x.id ≠ fresh2 0 := by
      intro x hx
      rcases List.mem_append.mp hx with hx | hx
      · exact hid2 x hx
      · simp only [List.mem_singleton] at hx
        subst hx
        exact fun hh => hne hh.symm
    have hdup : ((db.customers ++ [CRM.customerRow (fresh1 0) args1]).any
        fun x => sqliteEq x.email (CRM.customerRow (fresh2 0) args2).email) = true := by
      rw [hrow2]
      refine List.any_eq_true.mpr ⟨CRM.customerRow (fresh1 0) args1, ?_, ?_⟩
      · exact List.mem_append_right _ (List.mem_singleton_self _)
      · rw [hrow1]; exact sqliteEq_refl _
    have hdupl := CRM.add_customer_dup (fresh2 0) args2
      { db with customers := db.customers ++ [CRM.customerRow (fresh1 0) args1] }
      (by simpa [CRM.customerRow] using hf2) (by simpa [CRM.customerRow] using hl2)
      (by rw [hrow2]; rfl) hid2' hdup
    rw [hd, hdupl]
    simp [h2, pyOptStr, pyStr]

/-- C5 witness: the theorem at a concrete email on an empty database. -/
theorem C5_duplicate_email_witness :
    ∃ db2,
      CRM.handle_call_tool (fun _ => "c1") 0 "add_customer"
          [("first_name", .text "A"), ("last_name", .text "B"), ("email", .text "a@b.c")]
          ⟨[], [], []⟩ =
        .ok ⟨db2, [.write], [CRM.okMark ++ " Customer successfully added with ID: " ++ "c1"]⟩ ∧
      (db2.customers.filter fun c => sqliteEq c.email (.text "a@b.c")).length = 1 ∧
      CRM.handle_call_tool (fun _ => "c2") 0 "add_customer"
          [("first_name", .text "A"), ("last_name", .text "B"), ("email", .text "a@b.c")] db2 =
        .ok ⟨db2, [.write],
             [CRM.errMark ++ " Error: Customer with email " ++ "a@b.c" ++ " already exists"]⟩ :=
  C5_duplicate_email (fun _ => "c1") (fun _ => "c2") 0 0
    [("first_name", .text "A"), ("last_name", .text "B"), ("email", .text "a@b.c")]
    [("first_name", .text "A"), ("last_name", .text "B"), ("email", .text "a@b.c")]
    ⟨[], [], []⟩ "a@b.c" rfl rfl (by decide) (by decide) (by decide) (by decide)
    (by intro x hx; cases hx) (by intro x hx; cases hx) (by intro x hx; cases hx) (by decide)

/-- C6: optional-field defaults — an `add_deal` call without `stage` stores
the deal with stage "prospecting"; `get_recent_interactions` without `days`
behaves exactly as with `days = 7` and the 7-day cutoff is
`now - 7·86400` seconds; `add_customer`'s omitted optional fields take the
kind's zero value (empty string, 0, 0.0); `add_deal`'s omitted
`probability` takes 0.0 and its omitted `expected_close_date` the declared
default `None`. -/
theorem C6_optional_defaults :
    (∀ (fresh : Nat → String) (now : Int) (args : ArgBag) (db : CRM.DB) (cid dn v : Value),
        bagFind? args "stage" = none →
        bagFind? args "customer_id" = some cid → cid.isNull = false →
        bagFind? args "deal_name" = some dn → dn.isNull = false →
        bagFind? args "value" = some v → v.isNull = false →
        (∀ x ∈ db.deals, x.id ≠ fresh 0) →
        ∃ d, CRM.handle_call_tool fresh now "add_deal" args db =
            .ok ⟨{ db with deals := db.deals ++ [d] }, [.write],
                 [CRM.okMark ++ " Deal successfully added with ID: " ++ fresh 0]⟩ ∧
          d.stage = .text "prospecting") ∧
    (∀ (fresh : Nat → String) (now : Int) (args : ArgBag) (db : CRM.DB),
        bagFind? args "days" = none →
        CRM.handle_call_tool fresh now "get_recent_interactions" args db =
          CRM.handle_call_tool fresh now "get_recent_interactions"
            (("days", .int 7) :: args) db ∧
        CRM.windowCutoff now (.int 7) = some (Frac.ofInt (now - 7 * 86400))) ∧
    (∀ (fid : String) (args : ArgBag),
        bagFind? args "phone" = none → bagFind? args "company" = none →
        bagFind? args "industry" = none → bagFind? args "annual_revenue" = none →
        bagFind? args "employee_count" = none → bagFind? args "lead_source" = none →
        (CRM.customerRow fid args).phone = .text "" ∧
        (CRM.customerRow fid args).company = .text "" ∧
        (CRM.customerRow fid args).industry = .text "" ∧
        (CRM.customerRow fid args).annual_revenue = .real (Frac.ofInt 0) ∧
        (CRM.customerRow fid args).employee_count = .int 0 ∧
        (CRM.customerRow fid args).lead_source = .text "") ∧
    (∀ (fid : String) (cid dn v : Value) (args : ArgBag),
        bagFind? args "probability" = none → bagFind? args "expected_close_date" = none →
        (CRM.dealRow fid cid dn v args).probability = .real (Frac.ofInt 0) ∧
        (CRM.dealRow fid cid dn v args).expected_close_date = .null) := by
  refine ⟨?_, ?_, ?_, ?_⟩
  · intro fresh now args db cid dn v hst hc hcn hdn hdnn hv hvn hid
    have hd : CRM.handle_call_tool fresh now "add_deal" args db =
        .ok (CRM.add_deal (fresh 0) args db) := rfl
    refine ⟨CRM.dealRow (fresh 0) cid dn v args, ?_, ?_⟩
    · rw [hd, CRM.add_deal_ok (fresh 0) args db cid dn v hc hcn hdn hdnn hv hvn hid]
    · simp [CRM.dealRow, bagGetD_none hst]
  · intro fresh now args db h
    constructor
    · have hd1 : CRM.handle_call_tool fresh now "get_recent_interactions" args db =
          .ok (CRM.get_recent_interactions now args db) := rfl
      have hd2 : CRM.handle_call_tool fresh now "get_recent_interactions"
          (("days", .int 7) :: args) db =
          .ok (CRM.get_recent_interactions now (("days", .int 7) :: args) db) := rfl
      rw [hd1, hd2]
      simp [CRM.get_recent_interactions, bagGetD, bagFind?, h]
    · rfl
  · intro fid args h1 h2 h3 h4 h5 h6
    refine ⟨?_, ?_, ?_, ?_, ?_, ?_⟩ <;>
      simp [CRM.customerRow, bagGetD_none h1, bagGetD_none h2, bagGetD_none h3,
        bagGetD_none h4, bagGetD_none h5, bagGetD_none h6]
  · intro fid cid dn v args h1 h2
    exact ⟨by simp [CRM.dealRow, bagGetD_none h1], by simp [CRM.dealRow, bagGetD_none h2]⟩

/-- C6 witness: the theorem at concrete inputs — a stage-less add_deal stores
"prospecting", a days-less get_recent_interactions call equals the days=7
call, and the row-construction defaults evaluate to the zero values. -/
theorem C6_optional_defaults_witness :
    (∃ d, CRM.handle_call_tool (fun _ => "d0") 0 "add_deal"
        [("customer_id", .text "c"), ("deal_name", .text "D"), ("value", .int 2)] ⟨[], [], []⟩ =
      .ok ⟨⟨[], [], [] ++ [d]⟩, [.write],
           [CRM.okMark ++ " Deal successfully added with ID: d0"]⟩ ∧
      d.stage = .text "prospecting") ∧
    (CRM.handle_call_tool (fun _ => "u") 5 "get_recent_interactions" [] ⟨[], [], []⟩ =
      CRM.handle_call_tool (fun _ => "u") 5 "get_recent_interactions"
        [("days", .int 7)] ⟨[], [], []⟩) ∧
    ((CRM.customerRow "x" [("first_name", .text "A")]).phone = .text "" ∧
     (CRM.customerRow "x" [("first_name", .text "A")]).annual_revenue = .real (Frac.ofInt 0) ∧
     (CRM.customerRow "x" [("first_name", .text "A")]).employee_count = .int 0) ∧
    ((CRM.dealRow "x" (.text "c") (.text "D") (.int 2) []).probability = .real (Frac.ofInt 0) ∧
     (CRM.dealRow "x" (.text "c") (.text "D") (.int 2) []).expected_close_date = .null) := by
  refine ⟨?_, ?_, ?_, ?_⟩
  · exact C6_optional_defaults.1 (fun _ => "d0") 0
      [("customer_id", .text "c"), ("deal_name", .text "D"), ("value", .int 2)] ⟨[], [], []⟩
      (.text "c") (.text "D") (.int 2) rfl rfl rfl rfl rfl rfl rfl (by intro x hx; cases hx)
  · exact (C6_optional_defaults.2.1 (fun _ => "u") 5 [] ⟨[], [], []⟩ rfl).1
  · have := C6_optional_defaults.2.2.1 "x" [("first_name", .text "A")]
      rfl rfl rfl rfl rfl rfl
    exact ⟨this.1, this.2.2.2.1, this.2.2.2.2.1⟩
  · exact C6_optional_defaults.2.2.2 "x" (.text "c") (.text "D") (.int 2) [] rfl rfl

/-- C7: `analyze_deal_pipeline` always returns its stage groups in
non-decreasing order of the fixed stage rank (prospecting=1 …
closed-lost=6, other=7) — never alphabetically — and on a deals table with
stages {closed-won, prospecting, negotiation} the groups come out
prospecting, negotiation, closed-won. -/
theorem C7_pipeline_stage_order :
    (∀ db : CRM.DB,
        List.Pairwise (fun r r' => CRM.stageRank r.stage ≤ CRM.stageRank r'.stage)
          (CRM.pipeline_rows db)) ∧
    (CRM.pipeline_rows
        ⟨[], [],
         [⟨"a", .text "c", .text "A", .int 1, .text "closed-won", .real ⟨0, 0⟩, .null⟩,
          ⟨"b", .text "c", .text "B", .int 2, .text "prospecting", .real ⟨0, 0⟩, .null⟩,
          ⟨"c", .text "c", .text "C", .int 3, .text "negotiation", .real ⟨0, 0⟩, .null⟩]⟩).map
      CRM.StageRow.stage =
      [.text "prospecting", .text "negotiation", .text "closed-won"] := by
  constructor
  · intro db
    exact @List.sorted_insertionSort CRM.StageRow
      (fun r r' => CRM.stageRank r.stage ≤ CRM.stageRank r'.stage)
      (fun _ _ => Nat.decLe _ _)
      ⟨fun a b => Nat.le_total _ _⟩ ⟨fun a b c h1 h2 => Nat.le_trans h1 h2⟩ _
  · rfl

/-- C8: `list_files` behavior — a non-existent target yields the
does-not-exist error; an existing non-directory yields the
is-not-a-directory error; an empty directory yields the non-error contents
message with zero entries; a listable directory yields the contents message
over the lexicographically sorted entry names, each rendered with its
directory-versus-file marker; and an omitted `directory_path` behaves as
the literal "~", which expands to the home directory. -/
theorem C8_list_files :
    (∀ (fs : FileReader.FileSystem) (dp : String),
        FileReader.pathExists fs (FileReader.expanduser fs.home dp) = false →
        FileReader.handle_call_tool "list_files" [("directory_path", .text dp)] fs =
          .ok ["Error: Directory '" ++ FileReader.expanduser fs.home dp ++ "' does not exist"]) ∧
    (∀ (fs : FileReader.FileSystem) (dp : String),
        FileReader.pathExists fs (FileReader.expanduser fs.home dp) = true →
        FileReader.isDir fs (FileReader.expanduser fs.home dp) = false →
        FileReader.handle_call_tool "list_files" [("directory_path", .text dp)] fs =
          .ok ["Error: '" ++ FileReader.expanduser fs.home dp ++ "' is not a directory"]) ∧
    (∀ (fs : FileReader.FileSystem) (dp : String),
        FileReader.lookupPath fs.dirs (FileReader.expanduser fs.home dp) =
          some (.listable []) →
        FileReader.handle_call_tool "list_files" [("directory_path", .text dp)] fs =
          .ok ["Contents of '" ++ FileReader.expanduser fs.home dp ++ "':\n\n"]) ∧
    (∀ (fs : FileReader.FileSystem) (dp : String) (names : List String),
        FileReader.lookupPath fs.dirs (FileReader.expanduser fs.home dp) =
          some (.listable names) →
        FileReader.handle_call_tool "list_files" [("directory_path", .text dp)] fs =
          .ok ["Contents of '" ++ FileReader.expanduser fs.home dp ++ "':\n\n" ++
            String.intercalate "\n"
              ((List.insertionSort (fun a b => strLe a b = true) names).map
                (FileReader.entryLine fs (FileReader.expanduser fs.home dp)))] ∧
        List.Pairwise (fun a b => strLe a b = true)
          (List.insertionSort (fun a b => strLe a b = true) names) ∧
        (List.insertionSort (fun a b => strLe a b = true) names).Perm names) ∧
    (∀ (fs : FileReader.FileSystem) (args : ArgBag),
        bagFind? args "directory_path" = none →
        FileReader.handle_call_tool "list_files" args fs =
          FileReader.handle_call_tool "list_files" [("directory_path", .text "~")] fs ∧
        FileReader.expanduser fs.home "~" = fs.home) := by
  refine ⟨?_, ?_, ?_, ?_, ?_⟩
  · intro fs dp h
    have hd : FileReader.handle_call_tool "list_files" [("directory_path", .text dp)] fs =
        .ok (FileReader.list_files_body fs (FileReader.expanduser fs.home dp)) := rfl
    rw [hd, FileReader.list_files_body_not_exists fs _ h]
  · intro fs dp hex hdir
    have hd : FileReader.handle_call_tool "list_files" [("directory_path", .text dp)] fs =
        .ok (FileReader.list_files_body fs (FileReader.expanduser fs.home dp)) := rfl
    rw [hd, FileReader.list_files_body_not_dir fs _ hex hdir]
  · intro fs dp h
    have hd : FileReader.handle_call_tool "list_files" [("directory_path", .text dp)] fs =
        .ok (FileReader.list_files_body fs (FileReader.expanduser fs.home dp)) := rfl
    rw [hd, FileReader.list_files_body_listing fs _ [] h]
    simp [List.insertionSort, String.intercalate]
  · intro fs dp names h
    refine ⟨?_, ?_, ?_⟩
    · have hd : FileReader.handle_call_tool "list_files" [("directory_path", .text dp)] fs =
          .ok (FileReader.list_files_body fs (FileReader.expanduser fs.home dp)) := rfl
      rw [hd, FileReader.list_files_body_listing fs _ names h]
    · exact @List.sorted_insertionSort String (fun a b => strLe a b = true)
        (fun _ _ => instDecidableEqBool _ _)
        ⟨fun a b => strLe_total a b⟩ ⟨fun a b c h1 h2 => strLe_trans h1 h2⟩ names
    · exact List.perm_insertionSort _ names
  · intro fs args h
    constructor
    · simp [FileReader.handle_call_tool, bagGetD, bagFind?, h]
    · rfl

/-- C8 witness: the theorem applied at a concrete filesystem with a home
directory, a file, an empty directory and a two-entry directory. -/
theorem C8_list_files_witness :
    (FileReader.handle_call_tool "list_files" [("directory_path", .text "/nope")]
        ⟨"/h", [("/h/f", .readable "x")],
         [("/h", .listable []), ("/h/d", .listable ["b", "a"])]⟩ =
      .ok ["Error: Directory '/nope' does not exist"]) ∧
    (FileReader.handle_call_tool "list_files" [("directory_path", .text "/h/f")]
        ⟨"/h", [("/h/f", .readable "x")],
         [("/h", .listable []), ("/h/d", .listable ["b", "a"])]⟩ =
      .ok ["Error: '/h/f' is not a directory"]) ∧
    (FileReader.handle_call_tool "list_files" [("directory_path", .text "/h")]
        ⟨"/h", [("/h/f", .readable "x")],
         [("/h", .listable []), ("/h/d", .listable ["b", "a"])]⟩ =
      .ok ["Contents of '/h':\n\n"]) ∧
    (FileReader.handle_call_tool "list_files" [("directory_path", .text "/h/d")]
        ⟨"/h", [("/h/f", .readable "x")],
         [("/h", .listable []), ("/h/d", .listable ["b", "a"])]⟩ =
      .ok ["Contents of '/h/d':\n\n📄 a\n📄 b"]) ∧
    (FileReader.handle_call_tool "list_files" []
        ⟨"/h", [("/h/f", .readable "x")],
         [("/h", .listable []), ("/h/d", .listable ["b", "a"])]⟩ =
      FileReader.handle_call_tool "list_files" [("directory_path", .text "~")]
        ⟨"/h", [("/h/f", .readable "x")],
         [("/h", .listable []), ("/h/d", .listable ["b", "a"])]⟩) :=
  ⟨C8_list_files.1 ⟨"/h", [("/h/f", .readable "x")],
      [("/h", .listable []), ("/h/d", .listable ["b", "a"])]⟩ "/nope" (by decide),
   C8_list_files.2.1 ⟨"/h", [("/h/f", .readable "x")],
      [("/h", .listable []), ("/h/d", .listable ["b", "a"])]⟩ "/h/f" (by decide) (by decide),
   C8_list_files.2.2.1 ⟨"/h", [("/h/f", .readable "x")],
      [("/h", .listable []), ("/h/d", .listable ["b", "a"])]⟩ "/h" rfl,
   (C8_list_files.2.2.2.1 ⟨"/h", [("/h/f", .readable "x")],
      [("/h", .listable []), ("/h/d", .listable ["b", "a"])]⟩ "/h/d" ["b", "a"] rfl).1,
   (C8_list_files.2.2.2.2 ⟨"/h", [("/h/f", .readable "x")],
      [("/h", .listable []), ("/h/d", .listable ["b", "a"])]⟩ [] rfl).1⟩

/-- C9: `get_top_customers_by_revenue` returns at most 10 rows, every
returned row passes the `annual_revenue > 0` filter (in sqlite comparison
semantics, so NULL revenues never qualify), the rows are in non-increasing
revenue order, and when no customer qualifies the handler returns the
non-error empty-state message. -/
theorem C9_top_customers :
    ∀ db : CRM.DB,
      (CRM.top_customers_rows db).length ≤ 10 ∧
      (∀ c ∈ CRM.top_customers_rows db, sqliteGt c.annual_revenue (.int 0) = true) ∧
      List.Pairwise (fun c c' => sqliteLe c'.annual_revenue c.annual_revenue = true)
        (CRM.top_customers_rows db) ∧
      ((∀ c ∈ db.customers, sqliteGt c.annual_revenue (.int 0) = false) →
        CRM.get_top_customers_by_revenue db =
          ⟨db, [.query], [CRM.moneyMark ++ " No customers with revenue data found"]⟩) := by
  intro db
  refine ⟨?_, ?_, ?_, ?_⟩
  · show (List.take 10 _).length ≤ 10
    exact List.length_take_le _ _
  · intro c hc
    have hc1 : c ∈ List.insertionSort
        (fun c c' => sqliteLe c'.annual_revenue c.annual_revenue = true)
        (db.customers.filter fun c => sqliteGt c.annual_revenue (.int 0)) :=
      List.take_subset _ _ hc
    have hc2 : c ∈ db.customers.filter (fun c => sqliteGt c.annual_revenue (.int 0)) :=
      (List.perm_insertionSort _ _).mem_iff.mp hc1
    exact (List.mem_filter.mp hc2).2
  · have hs := @List.sorted_insertionSort CRM.Customer
      (fun c c' => sqliteLe c'.annual_revenue c.annual_revenue = true)
      (fun _ _ => instDecidableEqBool _ _)
      ⟨fun a b => sqliteLe_total b.annual_revenue a.annual_revenue⟩
      ⟨fun a b c h1 h2 => sqliteLe_trans h2 h1⟩
      (db.customers.filter fun c => sqliteGt c.annual_revenue (.int 0))
    exact List.Pairwise.sublist (List.take_sublist _ _) hs
  · intro hall
    have hfl : (db.customers.filter fun c => sqliteGt c.annual_revenue (.int 0)) = [] :=
      List.filter_eq_nil_iff.mpr fun x hx => by simp [hall x hx]
    have hrows : CRM.top_customers_rows db = [] := by
      simp [CRM.top_customers_rows, hfl]
    simp [CRM.get_top_customers_by_revenue, hrows]

/-- C9 witness: the theorem at a two-customer database (revenues 5 and 0)
and at the empty database for the empty-state message. -/
theorem C9_top_customers_witness :
    ((CRM.top_customers_rows
        ⟨[⟨"a", .text "A", .text "B", .text "a@b", .text "", .text "", .text "",
            .int 5, .int 1, .text "active", .text ""⟩,
          ⟨"b", .text "C", .text "D", .text "c@d", .text "", .text "", .text "",
            .int 0, .int 1, .text "active", .text ""⟩], [], []⟩).length ≤ 10) ∧
    (sqliteGt (Value.int 5) (.int 0) = true) ∧
    (CRM.get_top_customers_by_revenue ⟨[], [], []⟩ =
      ⟨⟨[], [], []⟩, [.query], [CRM.moneyMark ++ " No customers with revenue data found"]⟩) :=
  ⟨(C9_top_customers ⟨[⟨"a", .text "A", .text "B", .text "a@b", .text "", .text "", .text "",
        .int 5, .int 1, .text "active", .text ""⟩,
      ⟨"b", .text "C", .text "D", .text "c@d", .text "", .text "", .text "",
        .int 0, .int 1, .text "active", .text ""⟩], [], []⟩).1,
   (C9_top_customers ⟨[⟨"a", .text "A", .text "B", .text "a@b", .text "", .text "", .text "",
        .int 5, .int 1, .text "active", .text ""⟩,
      ⟨"b", .text "C", .text "D", .text "c@d", .text "", .text "", .text "",
        .int 0, .int 1, .text "active", .text ""⟩], [], []⟩).2.1
     ⟨"a", .text "A", .text "B", .text "a@b", .text "", .text "", .text "",
        .int 5, .int 1, .text "active", .text ""⟩ (by decide),
   (C9_top_customers ⟨[], [], []⟩).2.2.2 (by intro c hc; cases hc)⟩

/-- C10: `add_interaction` and `add_deal` succeed for ANY `customer_id`
value — no hypothesis relates it to the customers table, so no
referential-integrity check happens at insertion (the schema's FOREIGN KEYs
are never enabled); the inserted row carries the given customer_id
verbatim. -/
theorem C10_no_referential_check :
    (∀ (fresh : Nat → String) (now : Int) (args : ArgBag) (db : CRM.DB) (cid ity : Value),
        bagFind? args "customer_id" = some cid → cid.isNull = false →
        bagFind? args "interaction_type" = some ity → ity.isNull = false →
        (∀ x ∈ db.interactions, x.id ≠ fresh 0) →
        CRM.handle_call_tool fresh now "add_interaction" args db =
          .ok ⟨{ db with interactions :=
                  db.interactions ++ [CRM.interactionRow (fresh 0) cid ity now args] },
               [.write],
               [CRM.okMark ++ " Interaction successfully added with ID: " ++ fresh 0]⟩ ∧
        (CRM.interactionRow (fresh 0) cid ity now args).customer_id = cid) ∧
    (∀ (fresh : Nat → String) (now : Int) (args : ArgBag) (db : CRM.DB) (cid dn v : Value),
        bagFind? args "customer_id" = some cid → cid.isNull = false →
        bagFind? args "deal_name" = some dn → dn.isNull = false →
        bagFind? args "value" = some v → v.isNull = false →
        (∀ x ∈ db.deals, x.id ≠ fresh 0) →
        CRM.handle_call_tool fresh now "add_deal" args db =
          .ok ⟨{ db with deals := db.deals ++ [CRM.dealRow (fresh 0) cid dn v args] },
               [.write], [CRM.okMark ++ " Deal successfully added with ID: " ++ fresh 0]⟩ ∧
        (CRM.dealRow (fresh 0) cid dn v args).customer_id = cid) := by
  refine ⟨?_, ?_⟩
  · intro fresh now args db cid ity hc hcn hi hin hid
    have hd : CRM.handle_call_tool fresh now "add_interaction" args db =
        .ok (CRM.add_interaction (fresh 0) now args db) := rfl
    exact ⟨by rw [hd, CRM.add_interaction_ok (fresh 0) now args db cid ity hc hcn hi hin hid],
      rfl⟩
  · intro fresh now args db cid dn v hc hcn hdn hdnn hv hvn hid
    have hd : CRM.handle_call_tool fresh now "add_deal" args db =
        .ok (CRM.add_deal (fresh 0) args db) := rfl
    exact ⟨by rw [hd, CRM.add_deal_ok (fresh 0) args db cid dn v hc hcn hdn hdnn hv hvn hid],
      rfl⟩

/-- C10 witness: the theorem applied with customer_id "ghost" on a database
whose customers table is EMPTY — both inserts still succeed and store the
dangling reference. -/
theorem C10_no_referential_check_witness :
    (CRM.handle_call_tool (fun _ => "i1") 9 "add_interaction"
        [("customer_id", .text "ghost"), ("interaction_type", .text "call")] ⟨[], [], []⟩ =
      .ok ⟨⟨[], [] ++ [CRM.interactionRow "i1" (.text "ghost") (.text "call") 9
              [("customer_id", .text "ghost"), ("interaction_type", .text "call")]], []⟩,
           [.write], [CRM.okMark ++ " Interaction successfully added with ID: i1"]⟩) ∧
    (CRM.handle_call_tool (fun _ => "d1") 9 "add_deal"
        [("customer_id", .text "ghost"), ("deal_name", .text "D"), ("value", .int 3)]
        ⟨[], [], []⟩ =
      .ok ⟨⟨[], [], [] ++ [CRM.dealRow "d1" (.text "ghost") (.text "D") (.int 3)
              [("customer_id", .text "ghost"), ("deal_name", .text "D"), ("value", .int 3)]]⟩,
           [.write], [CRM.okMark ++ " Deal successfully added with ID: d1"]⟩) :=
  ⟨(C10_no_referential_check.1 (fun _ => "i1") 9
      [("customer_id", .text "ghost"), ("interaction_type", .text "call")] ⟨[], [], []⟩
      (.text "ghost") (.text "call") rfl rfl rfl rfl (by intro x hx; cases hx)).1,
   (C10_no_referential_check.2 (fun _ => "d1") 9
      [("customer_id", .text "ghost"), ("deal_name", .text "D"), ("value", .int 3)] ⟨[], [], []⟩
      (.text "ghost") (.text "D") (.int 3) rfl rfl rfl rfl rfl rfl
      (by intro x hx; cases hx)).1⟩
